import Mathlib

/-!
Shallow embedding of the "Sistema contable" ledger back end.

The embedding follows `BE/app/services/libro_mayor_service.py`,
`BE/app/services/asiento_service.py` and `BE/app/routes/libro_mayor.py`:

* `Decimal` money amounts are modelled as exact rationals (`ℚ`); every
  value produced by `Decimal` arithmetic in the source is an exact
  rational, so this is lossless.
* Python `float(...)` conversions (used by the service when building the
  JSON report) are modelled by `roundB64`, rounding a rational to the
  nearest IEEE-754 binary64 value (round half to even, normal range).
* Dates are modelled as integers (day ordinals); only their order matters.
* The SQLAlchemy query of `generar_libro_mayor_completo` (chart of
  accounts LEFT OUTER JOIN journal entries LEFT OUTER JOIN transactions,
  WHERE date predicates, GROUP BY account, COALESCE(SUM(..), 0)) is
  embedded with standard SQL semantics: the outer join produces one NULL
  row for an account without entries, the WHERE filter runs over the
  joined rows, and GROUP BY drops groups with no surviving rows.
-/

namespace SistemaContable

/-- Dates as day ordinals; only comparisons are used by the code. -/
abbrev Fecha := ℤ

/-- Exact decimal amounts (`decimal.Decimal` in the source). -/
abbrev Dinero := ℚ

/-! ### IEEE-754 binary64 (`float`) as exact rationals -/

/-- Integer powers of two as rationals, `2 ^ e`. -/
def pow2 (e : ℤ) : ℚ :=
  if 0 ≤ e then ((2 ^ e.toNat : ℕ) : ℚ) else mkRat 1 (2 ^ (-e).toNat)

/-- Fuel-driven base-2 logarithm on naturals (structural recursion, so
it reduces inside the kernel). -/
def log2Fuel : ℕ → ℕ → ℕ
  | 0, _ => 0
  | fuel + 1, n => if n ≤ 1 then 0 else log2Fuel fuel (n / 2) + 1

/-- Floor of the base-2 logarithm of a natural number, `natLog2 0 = 0`. -/
def natLog2 (n : ℕ) : ℕ :=
  log2Fuel n n

/-- Floor of the base-2 logarithm of a positive rational. -/
def floorLog2 (q : ℚ) : ℤ :=
  let a := q.num.toNat
  let b := q.den
  let d : ℤ := (natLog2 a : ℤ) - (natLog2 b : ℤ)
  if pow2 d ≤ q then d else d - 1

/-- Round a rational to the nearest IEEE-754 binary64 value (round half
to even), the semantics of Python's `float(Decimal(...))` and of float
arithmetic results.  Faithful on the normal range of binary64, which
covers every monetary value in scope. -/
def roundB64 (q : ℚ) : ℚ :=
  if q = 0 then 0
  else
    let s : ℚ := if q < 0 then -1 else 1
    let x : ℚ := |q|
    let e : ℤ := floorLog2 x - 52
    let scaled : ℚ := x / pow2 e
    let lo : ℤ := scaled.floor
    let fr : ℚ := scaled - (lo : ℚ)
    let m : ℤ :=
      if fr < 1 / 2 then lo
      else if 1 / 2 < fr then lo + 1
      else if lo % 2 = 0 then lo else lo + 1
    s * (m : ℚ) * pow2 e

/-! ### Data model (`BE/app/models`) -/

/-- A row of `catalogo_cuentas`; the account code is a Python string,
modelled as a list of characters. -/
structure CatalogoCuentas where
  id_cuenta : ℕ
  codigo_cuenta : List Char
  nombre_cuenta : String
  tipo_cuenta : String
deriving DecidableEq, Repr

/-- A row of `transacciones` (fields the ledger engine reads). -/
structure Transaccion where
  id_transaccion : ℕ
  fecha_transaccion : Fecha
  descripcion : String
  tipo : String
deriving DecidableEq, Repr

/-- A row of `asientos`. -/
structure Asiento where
  id_asiento : ℕ
  id_transaccion : ℕ
  id_cuenta : ℕ
  debe : Dinero
  haber : Dinero
deriving DecidableEq, Repr

/-- The relational store the services query. -/
structure DB where
  cuentas : List CatalogoCuentas
  transacciones : List Transaccion
  asientos : List Asiento
deriving DecidableEq, Repr

def findTransaccion (db : DB) (tid : ℕ) : Option Transaccion :=
  db.transacciones.find? (fun t => t.id_transaccion == tid)

def findCuentaPorId (db : DB) (cid : ℕ) : Option CatalogoCuentas :=
  db.cuentas.find? (fun c => c.id_cuenta == cid)

def findCuentaPorCodigo (db : DB) (cod : List Char) : Option CatalogoCuentas :=
  db.cuentas.find? (fun c => c.codigo_cuenta == cod)

/-! ### The aggregation query of `generar_libro_mayor_completo`

`db.query(codigo, nombre, tipo, coalesce(sum(debe),0), coalesce(sum(haber),0))
   .select_from(CatalogoCuentas).outerjoin(Asiento).outerjoin(Transaccion)
   .filter(or_(fecha.is_(None), date(fecha) >= fecha_inicio))
   .filter(or_(fecha.is_(None), date(fecha) <= fecha_fin))
   .group_by(codigo, nombre, tipo)` -/

/-- One row of the outer join before filtering/grouping: the account, the
joined journal entry if any, and the date of the entry's transaction if
the transaction row exists (`NULL` otherwise). -/
structure FilaJoin where
  cuenta : CatalogoCuentas
  asiento : Option Asiento
  fecha : Option Fecha
deriving DecidableEq, Repr

/-- Rows the LEFT OUTER JOIN produces for one account: a single NULL row
when the account has no journal entries, else one row per entry. -/
def filasCuenta (db : DB) (c : CatalogoCuentas) : List FilaJoin :=
  match db.asientos.filter (fun a => a.id_cuenta == c.id_cuenta) with
  | [] => [⟨c, none, none⟩]
  | a :: resto =>
    (a :: resto).map
      (fun x => ⟨c, some x, (findTransaccion db x.id_transaccion).map (·.fecha_transaccion)⟩)

def filasJoinAux (db : DB) : List CatalogoCuentas → List FilaJoin
  | [] => []
  | c :: cs => filasCuenta db c ++ filasJoinAux db cs

/-- All rows of the LEFT OUTER JOIN. -/
def filasJoin (db : DB) : List FilaJoin :=
  filasJoinAux db db.cuentas

/-- The WHERE clause: `(fecha IS NULL OR date(fecha) >= fecha_inicio) AND
(fecha IS NULL OR date(fecha) <= fecha_fin)`, each conjunct present only
when the corresponding parameter is given. -/
def pasaFiltroFecha (fechaInicio fechaFin : Option Fecha) (fecha : Option Fecha) : Bool :=
  (match fechaInicio, fecha with
   | some i, some f => decide (i ≤ f)
   | some _, none => true
   | none, _ => true) &&
  (match fechaFin, fecha with
   | some j, some f => decide (f ≤ j)
   | some _, none => true
   | none, _ => true)

/-- One row of the grouped query result. -/
structure FilaResultado where
  codigo_cuenta : List Char
  nombre_cuenta : String
  tipo_cuenta : String
  total_debe : Dinero
  total_haber : Dinero
deriving DecidableEq, Repr

/-- The GROUP BY key. -/
def claveJoin (r : FilaJoin) : List Char × String × String :=
  (r.cuenta.codigo_cuenta, r.cuenta.nombre_cuenta, r.cuenta.tipo_cuenta)

def claveResultado (f : FilaResultado) : List Char × String × String :=
  (f.codigo_cuenta, f.nombre_cuenta, f.tipo_cuenta)

/-- Per-row contribution to `COALESCE(SUM(debe), 0)`: a NULL entry
contributes nothing. -/
def filaDebe (r : FilaJoin) : Dinero :=
  match r.asiento with
  | some a => a.debe
  | none => 0

def filaHaber (r : FilaJoin) : Dinero :=
  match r.asiento with
  | some a => a.haber
  | none => 0

/-- Adding a joined row's coalesced amounts to the result row of its
GROUP BY key (other result rows unchanged). -/
def acumularFila (r : FilaJoin) (f : FilaResultado) : FilaResultado :=
  if claveResultado f = claveJoin r then
    { f with total_debe := f.total_debe + filaDebe r,
             total_haber := f.total_haber + filaHaber r }
  else f

/-- Fold step realising GROUP BY with summed aggregates: a surviving row
either extends its group's sums or starts a new group. -/
def agruparFila (acc : List FilaResultado) (r : FilaJoin) : List FilaResultado :=
  if claveJoin r ∈ acc.map claveResultado then
    acc.map (acumularFila r)
  else
    acc ++ [⟨r.cuenta.codigo_cuenta, r.cuenta.nombre_cuenta, r.cuenta.tipo_cuenta,
            filaDebe r, filaHaber r⟩]

/-- `query.all()`: joined rows, date-filtered, grouped by account with
coalesced sums.  Groups whose every row is rejected by the WHERE clause
do not appear. -/
def resultadosCuentas (db : DB) (fechaInicio fechaFin : Option Fecha) : List FilaResultado :=
  ((filasJoin db).filter (fun r => pasaFiltroFecha fechaInicio fechaFin r.fecha)).foldl
    agruparFila []

/-! ### Grouping into cuentas mayores -/

/-- `codigo_completo[:digitos]` when the code is long enough, else
`codigo_completo.ljust(digitos, '0')`. -/
def codigoMayor (digitos : ℕ) (codigo : List Char) : List Char :=
  if digitos ≤ codigo.length then codigo.take digitos
  else codigo ++ List.replicate (digitos - codigo.length) '0'

/-- Group display name: the name of the account whose code equals the
group code exactly, else the synthetic `"Cuenta Mayor {codigo}"`. -/
def nombreMayorDe (db : DB) (codigo : List Char) : String :=
  match findCuentaPorCodigo db codigo with
  | some c => c.nombre_cuenta
  | none => "Cuenta Mayor " ++ String.mk codigo

/-- A subaccount record appended when `incluir_detalle` is true; its
monetary fields are `float(...)` images of the exact decimals. -/
structure Subcuenta where
  codigo_cuenta : List Char
  nombre_cuenta : String
  tipo_cuenta : String
  total_debe : ℚ
  total_haber : ℚ
  saldo : ℚ
deriving DecidableEq, Repr

/-- A bucket of `mayores_dict`: exact decimal accumulators plus the
subaccount list. -/
structure MayorAcc where
  codigo_mayor : List Char
  nombre_mayor : String
  total_debe : Dinero
  total_haber : Dinero
  saldo : Dinero
  subcuentas : List Subcuenta
deriving DecidableEq, Repr

/-- The subaccount record built from a result row (`float` fields). -/
def subcuentaDeFila (f : FilaResultado) : Subcuenta :=
  ⟨f.codigo_cuenta, f.nombre_cuenta, f.tipo_cuenta,
   roundB64 f.total_debe, roundB64 f.total_haber,
   roundB64 (f.total_debe - f.total_haber)⟩

/-- Accumulating a result row's exact decimals (and, when requested, its
subaccount record) into the bucket of the given group code (other
buckets unchanged). -/
def actualizarMayor (incluirDetalle : Bool) (clave : List Char) (fila : FilaResultado)
    (m : MayorAcc) : MayorAcc :=
  if m.codigo_mayor = clave then
    { m with
      total_debe := m.total_debe + fila.total_debe,
      total_haber := m.total_haber + fila.total_haber,
      saldo := m.saldo + (fila.total_debe - fila.total_haber),
      subcuentas :=
        if incluirDetalle then m.subcuentas ++ [subcuentaDeFila fila]
        else m.subcuentas }
  else m

/-- Processing one result row of the loop body of
`generar_libro_mayor_completo`: derive the group code, create the bucket
if absent (resolving its name), and accumulate the exact decimals. -/
def procesarFila (db : DB) (digitos : ℕ) (incluirDetalle : Bool)
    (dict : List MayorAcc) (fila : FilaResultado) : List MayorAcc :=
  let clave := codigoMayor digitos fila.codigo_cuenta
  let dict1 :=
    if clave ∈ dict.map (·.codigo_mayor) then dict
    else dict ++ [⟨clave, nombreMayorDe db clave, 0, 0, 0, []⟩]
  dict1.map (actualizarMayor incluirDetalle clave fila)

/-- `mayores_dict` after the processing loop (insertion order). -/
def mayoresDict (db : DB) (digitos : ℕ) (incluirDetalle : Bool)
    (filas : List FilaResultado) : List MayorAcc :=
  filas.foldl (procesarFila db digitos incluirDetalle) []

/-! ### Output assembly -/

/-- Lexicographic order on Python strings (code-point order). -/
def lexLe : List Char → List Char → Bool
  | [], _ => true
  | _ :: _, [] => false
  | a :: as, b :: bs => if a = b then lexLe as bs else decide (a < b)

def mayorAccLe (a b : MayorAcc) : Prop :=
  lexLe a.codigo_mayor b.codigo_mayor = true

instance : DecidableRel mayorAccLe := fun a b =>
  inferInstanceAs (Decidable (lexLe a.codigo_mayor b.codigo_mayor = true))

def subcuentaLe (a b : Subcuenta) : Prop :=
  lexLe a.codigo_cuenta b.codigo_cuenta = true

instance : DecidableRel subcuentaLe := fun a b =>
  inferInstanceAs (Decidable (lexLe a.codigo_cuenta b.codigo_cuenta = true))

/-- `for codigo in sorted(mayores_dict.keys())`. -/
def ordenarMayores (dict : List MayorAcc) : List MayorAcc :=
  dict.insertionSort mayorAccLe

/-- A group of the JSON response: monetary fields are `float(...)` images
of the bucket's exact decimals. -/
structure MayorJson where
  codigo_mayor : List Char
  nombre_mayor : String
  total_debe : ℚ
  total_haber : ℚ
  saldo : ℚ
  subcuentas : List Subcuenta
deriving DecidableEq, Repr

/-- Building the JSON record of a bucket: convert to float, and include
the subaccounts (sorted by code) only when detail was requested. -/
def mayorAJson (incluirDetalle : Bool) (m : MayorAcc) : MayorJson :=
  ⟨m.codigo_mayor, m.nombre_mayor,
   roundB64 m.total_debe, roundB64 m.total_haber, roundB64 m.saldo,
   if incluirDetalle then m.subcuentas.insertionSort subcuentaLe else []⟩

/-- The `resumen` block of the response. -/
structure Resumen where
  total_cuentas : ℕ
  total_debe_general : ℚ
  total_haber_general : ℚ
  diferencia : ℚ
  fecha_generacion : Fecha
deriving DecidableEq, Repr

/-- The `filtros_aplicados` block of the response. -/
structure FiltrosAplicados where
  digitos : ℤ
  fecha_inicio : Option Fecha
  fecha_fin : Option Fecha
  incluir_detalle : Bool
deriving DecidableEq, Repr

/-- The full ledger response. -/
structure LibroMayor where
  mayores : List MayorJson
  resumen : Resumen
  filtros_aplicados : FiltrosAplicados
deriving DecidableEq, Repr

/-- The report built after a successful query, mirroring the assembly
loop: buckets sorted by group code, exact totals accumulated across
buckets, every JSON monetary field a `float(...)` image, and
`diferencia = abs(total_debe_general - total_haber_general)` computed in
float arithmetic. -/
def armarReporte (db : DB) (digitos : ℤ) (fechaInicio fechaFin : Option Fecha)
    (incluirDetalle : Bool) (hoy : Fecha) : LibroMayor :=
  let dict := ordenarMayores
    (mayoresDict db digitos.toNat incluirDetalle (resultadosCuentas db fechaInicio fechaFin))
  let lista := dict.map (mayorAJson incluirDetalle)
  let totalDebeAcumulado := (dict.map (·.total_debe)).sum
  let totalHaberAcumulado := (dict.map (·.total_haber)).sum
  let totalDebeGeneral := roundB64 totalDebeAcumulado
  let totalHaberGeneral := roundB64 totalHaberAcumulado
  { mayores := lista,
    resumen :=
      { total_cuentas := lista.length,
        total_debe_general := totalDebeGeneral,
        total_haber_general := totalHaberGeneral,
        diferencia := |roundB64 (totalDebeGeneral - totalHaberGeneral)|,
        fecha_generacion := hoy },
    filtros_aplicados :=
      ⟨digitos, fechaInicio, fechaFin, incluirDetalle⟩ }

/-- `validar_parametros_libro_mayor`: the `ValueError`s (the spec's
`InvalidParameter`) raised before the query, in source order; `hoy`
models `date.today()`. -/
def validarParametrosLibroMayor (digitos : ℤ) (fechaInicio fechaFin : Option Fecha)
    (hoy : Fecha) : Option String :=
  if digitos < 1 ∨ 10 < digitos then
    some "El número de dígitos debe estar entre 1 y 10"
  else if (match fechaInicio, fechaFin with
           | some i, some j => decide (j < i)
           | _, _ => false) then
    some "La fecha de inicio no puede ser posterior a la fecha fin"
  else if (match fechaInicio with
           | some i => decide (hoy < i)
           | none => false) then
    some "La fecha de inicio no puede ser futura"
  else if (match fechaFin with
           | some j => decide (hoy < j)
           | none => false) then
    some "La fecha fin no puede ser futura"
  else none

/-- `generar_libro_mayor_completo`: validate, then query, group and
assemble.  A validation failure propagates before any query. -/
def generarLibroMayorCompleto (db : DB) (digitos : ℤ)
    (fechaInicio fechaFin : Option Fecha) (incluirDetalle : Bool)
    (hoy : Fecha) : Except String LibroMayor :=
  match validarParametrosLibroMayor digitos fechaInicio fechaFin hoy with
  | some msg => .error msg
  | none => .ok (armarReporte db digitos fechaInicio fechaFin incluirDetalle hoy)

/-- `obtener_resumen_por_digitos`: the full generator with
`incluir_detalle=False`. -/
def obtenerResumenPorDigitos (db : DB) (digitos : ℤ)
    (fechaInicio fechaFin : Option Fecha) (hoy : Fecha) : Except String LibroMayor :=
  generarLibroMayorCompleto db digitos fechaInicio fechaFin false hoy

/-! ### Routes (`BE/app/routes/libro_mayor.py`)

`digitos: int = Query(4, ge=1, le=10)` and
`incluir_detalle: bool = Query(False)`: omitted query parameters take the
declared defaults, modelled with `Option.getD`. -/

/-- `GET /api/libro_mayor`. -/
def obtenerLibroMayor (db : DB) (digitos : Option ℤ)
    (fechaInicio fechaFin : Option Fecha) (incluirDetalle : Option Bool)
    (hoy : Fecha) : Except String LibroMayor :=
  generarLibroMayorCompleto db (digitos.getD 4) fechaInicio fechaFin
    (incluirDetalle.getD false) hoy

/-- `GET /api/libro_mayor/resumen`. -/
def obtenerResumenLibroMayor (db : DB) (digitos : Option ℤ)
    (fechaInicio fechaFin : Option Fecha) (hoy : Fecha) : Except String LibroMayor :=
  obtenerResumenPorDigitos db (digitos.getD 4) fechaInicio fechaFin hoy

/-! ### Journal entry service (`BE/app/services/asiento_service.py`) -/

/-- Typed service failures: the spec's `ReferenceNotFound` (missing
referenced transaction or account, HTTP 400 in the source), the spec's
`InvalidEntry` (debit/credit rule, HTTP 400), and the missing-entry
HTTP 404 of `get_asiento`. -/
inductive ErrorServicio where
  | refNotFound (detalle : String)
  | invalidEntry
  | notFound (detalle : String)
deriving DecidableEq, Repr

/-- `validate_asiento_business_rules`: reject when both amounts are
positive or both are zero. -/
def validateAsientoBusinessRules (debe haber : Dinero) : Option ErrorServicio :=
  if (0 < debe ∧ 0 < haber) ∨ (debe = 0 ∧ haber = 0) then some .invalidEntry
  else none

/-- Payload of `AsientoCreate`. -/
structure AsientoCreate where
  id_transaccion : ℕ
  id_cuenta : ℕ
  debe : Dinero
  haber : Dinero
deriving DecidableEq, Repr

/-- Payload of `AsientoUpdate` (unset fields omitted). -/
structure AsientoUpdate where
  id_transaccion : Option ℕ
  id_cuenta : Option ℕ
  debe : Option Dinero
  haber : Option Dinero
deriving DecidableEq, Repr

/-- `create_asiento`: referenced transaction and account must exist, the
business rule must pass, then the row is inserted and committed.  The new
primary key models the autoincrement column. -/
def createAsiento (db : DB) (d : AsientoCreate) : Except ErrorServicio (DB × Asiento) :=
  match findTransaccion db d.id_transaccion with
  | none => .error (.refNotFound "Transacción no encontrada")
  | some _ =>
    match findCuentaPorId db d.id_cuenta with
    | none => .error (.refNotFound "Cuenta no encontrada")
    | some _ =>
      match validateAsientoBusinessRules d.debe d.haber with
      | some e => .error e
      | none =>
        let nuevo : Asiento :=
          ⟨db.asientos.length + 1, d.id_transaccion, d.id_cuenta, d.debe, d.haber⟩
        .ok ({ db with asientos := db.asientos ++ [nuevo] }, nuevo)

/-- Applying the provided fields of an update to a stored entry
(`exclude_unset=True` then `setattr`). -/
def aplicarUpdate (a : Asiento) (u : AsientoUpdate) : Asiento :=
  { a with
    id_transaccion := u.id_transaccion.getD a.id_transaccion,
    id_cuenta := u.id_cuenta.getD a.id_cuenta,
    debe := u.debe.getD a.debe,
    haber := u.haber.getD a.haber }

/-- `update_asiento`: fetch the entry, check updated references, apply
the updates, re-validate the post-update amounts, and only then commit.
An error leaves the committed store untouched (the session is never
committed on the error paths). -/
def updateAsiento (db : DB) (aid : ℕ) (u : AsientoUpdate) :
    Except ErrorServicio (DB × Asiento) :=
  match db.asientos.find? (fun a => a.id_asiento == aid) with
  | none => .error (.notFound "Asiento contable no encontrado")
  | some a =>
    if (match u.id_transaccion with
        | some t => (findTransaccion db t).isNone
        | none => false) then
      .error (.refNotFound "Transaction not found")
    else if (match u.id_cuenta with
             | some cid => (findCuentaPorId db cid).isNone
             | none => false) then
      .error (.refNotFound "Account not found")
    else
      let a2 := aplicarUpdate a u
      match validateAsientoBusinessRules a2.debe a2.haber with
      | some e => .error e
      | none =>
        .ok ({ db with
               asientos := db.asientos.map (fun x => if x.id_asiento == aid then a2 else x) },
             a2)

/-- The committed store after `create_asiento` (unchanged on error). -/
def createAsientoState (db : DB) (d : AsientoCreate) : DB :=
  match createAsiento db d with
  | .ok (db2, _) => db2
  | .error _ => db

/-- The committed store after `update_asiento` (unchanged on error). -/
def updateAsientoState (db : DB) (aid : ℕ) (u : AsientoUpdate) : DB :=
  match updateAsiento db aid u with
  | .ok (db2, _) => db2
  | .error _ => db

/-- Decidable equality of service results, used to state concrete
scenarios. -/
instance {ε α : Type} [DecidableEq ε] [DecidableEq α] : DecidableEq (Except ε α) :=
  fun a b =>
  match a, b with
  | .ok x, .ok y =>
    if h : x = y then isTrue (by rw [h]) else isFalse (by simp [h])
  | .error x, .error y =>
    if h : x = y then isTrue (by rw [h]) else isFalse (by simp [h])
  | .ok _, .error _ => isFalse (by simp)
  | .error _, .ok _ => isFalse (by simp)

/-! ### Sample stores used to instantiate the theorems -/

/-- A store with a single account, transaction and entry with integral
amounts. -/
def dbCaja : DB :=
  { cuentas := [⟨1, ['1', '1', '0', '0'], "Caja", "Activo"⟩],
    transacciones := [⟨1, 5, "venta", "INGRESO"⟩],
    asientos := [⟨1, 1, 1, 150, 0⟩] }

/-- A store whose single entry carries the decimal amount `0.10`. -/
def dbDecimo : DB :=
  { cuentas := [⟨1, ['1', '1', '0', '0'], "Caja", "Activo"⟩],
    transacciones := [⟨1, 5, "venta", "INGRESO"⟩],
    asientos := [⟨1, 1, 1, 1 / 10, 0⟩] }

/-- Three accounts in three distinct groups, each with a `0.10` debit. -/
def dbTresDecimos : DB :=
  { cuentas := [⟨1, ['1', '1'], "Caja", "Activo"⟩,
                ⟨2, ['2', '2'], "Bancos", "Activo"⟩,
                ⟨3, ['3', '3'], "Inventario", "Activo"⟩],
    transacciones := [⟨1, 5, "venta", "INGRESO"⟩],
    asientos := [⟨1, 1, 1, 1 / 10, 0⟩, ⟨2, 1, 2, 1 / 10, 0⟩, ⟨3, 1, 3, 1 / 10, 0⟩] }

/-- Three subaccounts of one group, each with a `0.10` debit. -/
def dbGrupoDecimos : DB :=
  { cuentas := [⟨1, ['1', '1', '0', '1'], "Caja chica", "Activo"⟩,
                ⟨2, ['1', '1', '0', '2'], "Caja general", "Activo"⟩,
                ⟨3, ['1', '1', '0', '3'], "Fondo fijo", "Activo"⟩],
    transacciones := [⟨1, 5, "venta", "INGRESO"⟩],
    asientos := [⟨1, 1, 1, 1 / 10, 0⟩, ⟨2, 1, 2, 1 / 10, 0⟩, ⟨3, 1, 3, 1 / 10, 0⟩] }

/-- A store with one posted account and one account without any entries. -/
def dbSinMovimiento : DB :=
  { cuentas := [⟨1, ['1', '1', '0', '0'], "Caja", "Activo"⟩,
                ⟨2, ['2', '1', '0', '0'], "Proveedores", "Pasivo"⟩],
    transacciones := [⟨1, 5, "venta", "INGRESO"⟩],
    asientos := [⟨1, 1, 1, 150, 0⟩] }

/-- Two accounts: code `"11"` matches its group code exactly, while code
`"2"` pads to the group code `"20"` that no account carries. -/
def dbNombres : DB :=
  { cuentas := [⟨1, ['1', '1'], "Bancos", "Activo"⟩,
                ⟨2, ['2'], "Patrimonio", "Capital"⟩],
    transacciones := [],
    asientos := [] }

/-- The single bucket produced for `dbCaja` with grouping width 2 and
detail requested. -/
def mayorCaja : MayorAcc :=
  ⟨['1', '1'], "Cuenta Mayor 11", 150, 0, 150,
   [⟨['1', '1', '0', '0'], "Caja", "Activo", 150, 0, 150⟩]⟩

/-- Invariant of the grouping loop, used for the conservation
properties: a bucket's exact totals are the sums over the processed
result rows of its group, and its subaccount list holds exactly those
rows' records (when detail is requested). -/
def invarianteMayor (dig : ℕ) (inc : Bool) (m : MayorAcc) (l : List FilaResultado) : Prop :=
  m.total_debe =
    ((l.filter (fun f => codigoMayor dig f.codigo_cuenta == m.codigo_mayor)).map
      (·.total_debe)).sum ∧
  m.total_haber =
    ((l.filter (fun f => codigoMayor dig f.codigo_cuenta == m.codigo_mayor)).map
      (·.total_haber)).sum ∧
  m.saldo =
    ((l.filter (fun f => codigoMayor dig f.codigo_cuenta == m.codigo_mayor)).map
      (fun f => f.total_debe - f.total_haber)).sum ∧
  m.subcuentas =
    (if inc then
      (l.filter (fun f => codigoMayor dig f.codigo_cuenta == m.codigo_mayor)).map
        subcuentaDeFila
    else [])

/-! ## Theorems -/

theorem roundB64_zero : roundB64 0 = 0 := by
  simp [roundB64]

theorem codigoMayor_length (d : ℕ) (c : List Char) : (codigoMayor d c).length = d := by
  unfold codigoMayor
  split
  · simp
    omega
  · simp
    omega

theorem codigoMayor_of_le (d : ℕ) (c : List Char) (h : d ≤ c.length) :
    codigoMayor d c = c.take d := by
  simp [codigoMayor, h]

theorem codigoMayor_of_lt (d : ℕ) (c : List Char) (h : c.length < d) :
    codigoMayor d c = c ++ List.replicate (d - c.length) '0' := by
  have : ¬d ≤ c.length := by omega
  simp [codigoMayor, this]

theorem pasaFiltroFecha_none (fi ff : Option Fecha) :
    pasaFiltroFecha fi ff none = true := by
  rcases fi with _ | i <;> rcases ff with _ | j <;> rfl

/-- Characterisation of `validar_parametros_libro_mayor`: it reports an
error exactly for out-of-range digits, an inverted date pair, or a
future date. -/
theorem validar_isSome_iff (digitos : ℤ) (fi ff : Option Fecha) (hoy : Fecha) :
    (validarParametrosLibroMayor digitos fi ff hoy).isSome ↔
      (digitos < 1 ∨ 10 < digitos ∨
        (∃ i j, fi = some i ∧ ff = some j ∧ j < i) ∨
        (∃ i, fi = some i ∧ hoy < i) ∨
        (∃ j, ff = some j ∧ hoy < j)) := by
  rcases fi with _ | i <;> rcases ff with _ | j <;>
    simp only [validarParametrosLibroMayor] <;>
    split_ifs <;>
    simp_all <;>
    omega

/-- C5: `generar_libro_mayor_completo` raises `InvalidParameter` (a
`ValueError`), before touching the store, exactly when the digits are out
of `1..10`, both dates are given inverted, or a given date lies in the
future; the outcome of validation does not depend on the store. -/
theorem c5_validacion_parametros (digitos : ℤ) (fi ff : Option Fecha) (hoy : Fecha) :
    ((validarParametrosLibroMayor digitos fi ff hoy).isSome ↔
      (digitos < 1 ∨ 10 < digitos ∨
        (∃ i j, fi = some i ∧ ff = some j ∧ j < i) ∨
        (∃ i, fi = some i ∧ hoy < i) ∨
        (∃ j, ff = some j ∧ hoy < j))) ∧
    (∀ (db : DB) (incluir : Bool),
      (∃ msg, generarLibroMayorCompleto db digitos fi ff incluir hoy = .error msg) ↔
        (validarParametrosLibroMayor digitos fi ff hoy).isSome) := by
  refine ⟨validar_isSome_iff digitos fi ff hoy, ?_⟩
  intro db incluir
  unfold generarLibroMayorCompleto
  cases h : validarParametrosLibroMayor digitos fi ff hoy <;> simp

/-- C10: an omitted `digitos` on the ledger routes defaults to a grouping
width of 4 (and an omitted `incluir_detalle` to false), so an omitted
`digitos` never triggers the parameter validation error; only date
problems can. -/
theorem c10_parametros_por_defecto (db : DB) (fi ff : Option Fecha) (hoy : Fecha) :
    obtenerLibroMayor db none fi ff none hoy =
      generarLibroMayorCompleto db 4 fi ff false hoy ∧
    obtenerResumenLibroMayor db none fi ff hoy =
      generarLibroMayorCompleto db 4 fi ff false hoy ∧
    ((∃ msg, obtenerLibroMayor db none fi ff none hoy = .error msg) ↔
      ((∃ i j, fi = some i ∧ ff = some j ∧ j < i) ∨
        (∃ i, fi = some i ∧ hoy < i) ∨
        (∃ j, ff = some j ∧ hoy < j))) := by
  refine ⟨rfl, rfl, ?_⟩
  have h1 : (∃ msg, generarLibroMayorCompleto db 4 fi ff false hoy = .error msg) ↔
      (validarParametrosLibroMayor 4 fi ff hoy).isSome := by
    unfold generarLibroMayorCompleto
    cases h : validarParametrosLibroMayor 4 fi ff hoy <;> simp
  have h2 := validar_isSome_iff 4 fi ff hoy
  have h3 : ¬((4 : ℤ) < 1) := by omega
  have h4 : ¬((10 : ℤ) < 4) := by omega
  show (∃ msg, generarLibroMayorCompleto db 4 fi ff false hoy = .error msg) ↔ _
  rw [h1, h2]
  simp [h3, h4]

/-! ### Keys of the GROUP BY fold -/

theorem acumularFila_clave (r : FilaJoin) (f : FilaResultado) :
    claveResultado (acumularFila r f) = claveResultado f := by
  unfold acumularFila
  split <;> rfl

theorem actualizarMayor_codigo (inc : Bool) (k : List Char) (fila : FilaResultado)
    (m : MayorAcc) : (actualizarMayor inc k fila m).codigo_mayor = m.codigo_mayor := by
  unfold actualizarMayor
  split <;> rfl

theorem actualizarMayor_nombre (inc : Bool) (k : List Char) (fila : FilaResultado)
    (m : MayorAcc) : (actualizarMayor inc k fila m).nombre_mayor = m.nombre_mayor := by
  unfold actualizarMayor
  split <;> rfl

theorem map_clave_agruparFila (acc : List FilaResultado) (r : FilaJoin) :
    (agruparFila acc r).map claveResultado =
      if claveJoin r ∈ acc.map claveResultado then acc.map claveResultado
      else acc.map claveResultado ++ [claveJoin r] := by
  by_cases h : claveJoin r ∈ acc.map claveResultado
  · rw [if_pos h]
    unfold agruparFila
    rw [if_pos h, List.map_map]
    exact List.map_congr_left (fun f _ => acumularFila_clave r f)
  · rw [if_neg h]
    unfold agruparFila
    rw [if_neg h, List.map_append]
    rfl

theorem clave_of_agruparFila (acc : List FilaResultado) (r : FilaJoin) (k : List Char × String × String)
    (h : k ∈ (agruparFila acc r).map claveResultado) :
    k ∈ acc.map claveResultado ∨ k = claveJoin r := by
  rw [map_clave_agruparFila] at h
  split at h
  · exact Or.inl h
  · rcases List.mem_append.1 h with h2 | h2
    · exact Or.inl h2
    · simp at h2
      exact Or.inr h2

theorem clave_of_foldl_agrupar (rows : List FilaJoin) :
    ∀ (acc : List FilaResultado) (k : List Char × String × String),
      k ∈ (rows.foldl agruparFila acc).map claveResultado →
      k ∈ acc.map claveResultado ∨ ∃ r ∈ rows, k = claveJoin r := by
  induction rows with
  | nil => intro acc k h; exact Or.inl h
  | cons r rs ih =>
    intro acc k h
    rcases ih (agruparFila acc r) k h with h2 | h2
    · rcases clave_of_agruparFila acc r k h2 with h3 | h3
      · exact Or.inl h3
      · exact Or.inr ⟨r, List.mem_cons_self r rs, h3⟩
    · rcases h2 with ⟨r2, hr2, hk⟩
      exact Or.inr ⟨r2, List.mem_cons_of_mem r hr2, hk⟩

theorem map_codigo_procesarFila (db : DB) (dig : ℕ) (inc : Bool)
    (dict : List MayorAcc) (fila : FilaResultado) :
    (procesarFila db dig inc dict fila).map (·.codigo_mayor) =
      if codigoMayor dig fila.codigo_cuenta ∈ dict.map (·.codigo_mayor) then
        dict.map (·.codigo_mayor)
      else dict.map (·.codigo_mayor) ++ [codigoMayor dig fila.codigo_cuenta] := by
  by_cases h : codigoMayor dig fila.codigo_cuenta ∈ dict.map (·.codigo_mayor)
  · rw [if_pos h]
    unfold procesarFila
    dsimp only
    rw [if_pos h, List.map_map]
    exact List.map_congr_left (fun m _ =>
      actualizarMayor_codigo inc (codigoMayor dig fila.codigo_cuenta) fila m)
  · rw [if_neg h]
    unfold procesarFila
    dsimp only
    rw [if_neg h, List.map_append, List.map_append, List.map_map, List.map_map]
    have h1 : List.map ((·.codigo_mayor) ∘ actualizarMayor inc
        (codigoMayor dig fila.codigo_cuenta) fila) dict = dict.map (·.codigo_mayor) :=
      List.map_congr_left (fun m _ =>
        actualizarMayor_codigo inc (codigoMayor dig fila.codigo_cuenta) fila m)
    rw [h1]
    simp [actualizarMayor_codigo]

theorem codigo_mem_procesarFila (db : DB) (dig : ℕ) (inc : Bool)
    (dict : List MayorAcc) (fila : FilaResultado) :
    codigoMayor dig fila.codigo_cuenta ∈
      (procesarFila db dig inc dict fila).map (·.codigo_mayor) := by
  rw [map_codigo_procesarFila]
  split
  · assumption
  · exact List.mem_append_right _ (by simp)

theorem codigo_mono_procesarFila (db : DB) (dig : ℕ) (inc : Bool)
    (dict : List MayorAcc) (fila : FilaResultado) (k : List Char)
    (hk : k ∈ dict.map (·.codigo_mayor)) :
    k ∈ (procesarFila db dig inc dict fila).map (·.codigo_mayor) := by
  rw [map_codigo_procesarFila]
  split
  · exact hk
  · exact List.mem_append_left _ hk

theorem codigo_of_procesarFila (db : DB) (dig : ℕ) (inc : Bool)
    (dict : List MayorAcc) (fila : FilaResultado) (k : List Char)
    (hk : k ∈ (procesarFila db dig inc dict fila).map (·.codigo_mayor)) :
    k ∈ dict.map (·.codigo_mayor) ∨ k = codigoMayor dig fila.codigo_cuenta := by
  rw [map_codigo_procesarFila] at hk
  split at hk
  · exact Or.inl hk
  · rcases List.mem_append.1 hk with h2 | h2
    · exact Or.inl h2
    · simp at h2
      exact Or.inr h2

theorem codigo_mono_foldl (db : DB) (dig : ℕ) (inc : Bool) (filas : List FilaResultado) :
    ∀ (dict : List MayorAcc) (k : List Char), k ∈ dict.map (·.codigo_mayor) →
      k ∈ (filas.foldl (procesarFila db dig inc) dict).map (·.codigo_mayor) := by
  induction filas with
  | nil => intro dict k hk; exact hk
  | cons f fs ih =>
    intro dict k hk
    exact ih _ k (codigo_mono_procesarFila db dig inc dict f k hk)

theorem codigo_mem_foldl_of_fila (db : DB) (dig : ℕ) (inc : Bool)
    (filas : List FilaResultado) (fila : FilaResultado) (hf : fila ∈ filas) :
    ∀ dict : List MayorAcc,
      codigoMayor dig fila.codigo_cuenta ∈
        (filas.foldl (procesarFila db dig inc) dict).map (·.codigo_mayor) := by
  induction filas with
  | nil => cases hf
  | cons f fs ih =>
    intro dict
    rcases List.mem_cons.1 hf with rfl | hf2
    · exact codigo_mono_foldl db dig inc fs _ _ (codigo_mem_procesarFila db dig inc dict fila)
    · exact ih hf2 _

theorem codigo_of_foldl (db : DB) (dig : ℕ) (inc : Bool) (filas : List FilaResultado) :
    ∀ (dict : List MayorAcc) (k : List Char),
      k ∈ (filas.foldl (procesarFila db dig inc) dict).map (·.codigo_mayor) →
      k ∈ dict.map (·.codigo_mayor) ∨ ∃ fila ∈ filas, k = codigoMayor dig fila.codigo_cuenta := by
  induction filas with
  | nil => intro dict k hk; exact Or.inl hk
  | cons f fs ih =>
    intro dict k hk
    rcases ih _ k hk with h2 | h2
    · rcases codigo_of_procesarFila db dig inc dict f k h2 with h3 | h3
      · exact Or.inl h3
      · exact Or.inr ⟨f, List.mem_cons_self f fs, h3⟩
    · rcases h2 with ⟨fila, hfila, hk2⟩
      exact Or.inr ⟨fila, List.mem_cons_of_mem f hfila, hk2⟩

/-! ### Provenance of join rows -/

theorem cuenta_of_filasCuenta (db : DB) (c : CatalogoCuentas) (r : FilaJoin)
    (h : r ∈ filasCuenta db c) : r.cuenta = c := by
  unfold filasCuenta at h
  split at h
  · simp at h
    rw [h]
  · rcases List.mem_map.1 h with ⟨x, _, rfl⟩
    rfl

theorem mem_filasJoinAux (db : DB) :
    ∀ (cs : List CatalogoCuentas) (r : FilaJoin), r ∈ filasJoinAux db cs →
      ∃ c ∈ cs, r ∈ filasCuenta db c := by
  intro cs
  induction cs with
  | nil => intro r h; cases h
  | cons c cs ih =>
    intro r h
    rcases List.mem_append.1 h with h2 | h2
    · exact ⟨c, List.mem_cons_self c cs, h2⟩
    · rcases ih r h2 with ⟨c2, hc2, hr⟩
      exact ⟨c2, List.mem_cons_of_mem c hc2, hr⟩

theorem filasCuenta_subset_aux (db : DB) :
    ∀ (cs : List CatalogoCuentas) (c : CatalogoCuentas), c ∈ cs →
      ∀ r ∈ filasCuenta db c, r ∈ filasJoinAux db cs := by
  intro cs
  induction cs with
  | nil => intro c hc; cases hc
  | cons c2 cs ih =>
    intro c hc r hr
    rcases List.mem_cons.1 hc with rfl | hc2
    · exact List.mem_append_left _ hr
    · exact List.mem_append_right _ (ih c hc2 r hr)

/-- Distinct codes identify at most one account in the chart. -/
theorem cuenta_unica_por_codigo :
    ∀ (cs : List CatalogoCuentas),
      cs.Pairwise (fun a b => a.codigo_cuenta ≠ b.codigo_cuenta) →
      ∀ a ∈ cs, ∀ b ∈ cs, a.codigo_cuenta = b.codigo_cuenta → a = b := by
  intro cs
  induction cs with
  | nil => intro _ a ha; cases ha
  | cons c cs ih =>
    intro hp a ha b hb hab
    have hp2 := List.pairwise_cons.1 hp
    rcases List.mem_cons.1 ha with rfl | ha2 <;> rcases List.mem_cons.1 hb with rfl | hb2
    · rfl
    · exact absurd hab (hp2.1 b hb2)
    · exact absurd hab.symm (hp2.1 a ha2)
    · exact ih hp2.2 a ha2 b hb2 hab

/-! ### From the response back to the buckets -/

theorem generar_ok (db : DB) (digitos : ℤ) (fi ff : Option Fecha) (inc : Bool)
    (hoy : Fecha) (rep : LibroMayor)
    (h : generarLibroMayorCompleto db digitos fi ff inc hoy = .ok rep) :
    rep = armarReporte db digitos fi ff inc hoy ∧
      validarParametrosLibroMayor digitos fi ff hoy = none := by
  unfold generarLibroMayorCompleto at h
  cases hv : validarParametrosLibroMayor digitos fi ff hoy <;> rw [hv] at h
  · simp only [Except.ok.injEq] at h
    exact ⟨h.symm, rfl⟩
  · simp at h

theorem mem_mayores_armarReporte (db : DB) (digitos : ℤ) (fi ff : Option Fecha)
    (inc : Bool) (hoy : Fecha) (m : MayorJson)
    (hm : m ∈ (armarReporte db digitos fi ff inc hoy).mayores) :
    ∃ m0 ∈ mayoresDict db digitos.toNat inc (resultadosCuentas db fi ff),
      m = mayorAJson inc m0 := by
  unfold armarReporte at hm
  dsimp only at hm
  rcases List.mem_map.1 hm with ⟨m0, hm0, rfl⟩
  refine ⟨m0, ?_, rfl⟩
  unfold ordenarMayores at hm0
  exact (List.mem_insertionSort mayorAccLe).1 hm0

theorem json_mem_armarReporte (db : DB) (digitos : ℤ) (fi ff : Option Fecha)
    (inc : Bool) (hoy : Fecha) (m0 : MayorAcc)
    (h : m0 ∈ mayoresDict db digitos.toNat inc (resultadosCuentas db fi ff)) :
    mayorAJson inc m0 ∈ (armarReporte db digitos fi ff inc hoy).mayores := by
  unfold armarReporte
  dsimp only
  refine List.mem_map_of_mem _ ?_
  unfold ordenarMayores
  exact (List.mem_insertionSort mayorAccLe).2 h

/-- Every grouped result row carries the identity of an account of the
chart. -/
theorem fila_clave_de_cuenta (db : DB) (fi ff : Option Fecha) (fila : FilaResultado)
    (h : fila ∈ resultadosCuentas db fi ff) :
    ∃ c ∈ db.cuentas, fila.codigo_cuenta = c.codigo_cuenta ∧
      fila.nombre_cuenta = c.nombre_cuenta ∧ fila.tipo_cuenta = c.tipo_cuenta := by
  unfold resultadosCuentas at h
  have h2 := clave_of_foldl_agrupar _ [] (claveResultado fila)
    (List.mem_map_of_mem claveResultado h)
  rcases h2 with h3 | ⟨r, hr, hk⟩
  · cases h3
  · have hr2 := (List.mem_filter.1 hr).1
    rcases mem_filasJoinAux db db.cuentas r hr2 with ⟨c, hc, hrc⟩
    have hcu := cuenta_of_filasCuenta db c r hrc
    refine ⟨c, hc, ?_, ?_, ?_⟩ <;>
      · simp only [claveResultado, claveJoin, hcu, Prod.mk.injEq] at hk
        tauto

/-- C1: every group of a generated report is keyed by the first `digitos`
characters of a member account's code, right-padded with `'0'` when the
code is shorter, and the key has length exactly `digitos`. -/
theorem c1_clave_de_agrupacion (db : DB) (digitos : ℤ) (fi ff : Option Fecha)
    (incluir : Bool) (hoy : Fecha) (rep : LibroMayor) (m : MayorJson)
    (h1 : 1 ≤ digitos) (h2 : digitos ≤ 10)
    (hrep : generarLibroMayorCompleto db digitos fi ff incluir hoy = .ok rep)
    (hm : m ∈ rep.mayores) :
    m.codigo_mayor.length = digitos.toNat ∧
    ∃ c ∈ db.cuentas,
      m.codigo_mayor = codigoMayor digitos.toNat c.codigo_cuenta ∧
      (digitos.toNat ≤ c.codigo_cuenta.length →
        m.codigo_mayor = c.codigo_cuenta.take digitos.toNat) ∧
      (c.codigo_cuenta.length < digitos.toNat →
        m.codigo_mayor = c.codigo_cuenta ++
          List.replicate (digitos.toNat - c.codigo_cuenta.length) '0') := by
  obtain ⟨hrep2, _⟩ := generar_ok db digitos fi ff incluir hoy rep hrep
  subst hrep2
  obtain ⟨m0, hm0, rfl⟩ := mem_mayores_armarReporte db digitos fi ff incluir hoy m hm
  have hkey : m0.codigo_mayor ∈
      (mayoresDict db digitos.toNat incluir (resultadosCuentas db fi ff)).map
        (·.codigo_mayor) :=
    List.mem_map_of_mem _ hm0
  unfold mayoresDict at hkey
  rcases codigo_of_foldl db digitos.toNat incluir _ [] _ hkey with h4 | ⟨fila, hfila, hk⟩
  · cases h4
  · obtain ⟨c, hc, hcod, _, _⟩ := fila_clave_de_cuenta db fi ff fila hfila
    have hmk : (mayorAJson incluir m0).codigo_mayor =
        codigoMayor digitos.toNat c.codigo_cuenta := by
      show m0.codigo_mayor = _
      rw [hk, hcod]
    refine ⟨?_, c, hc, hmk, ?_, ?_⟩
    · rw [hmk, codigoMayor_length]
    · intro hle
      rw [hmk, codigoMayor_of_le _ _ hle]
    · intro hlt
      rw [hmk, codigoMayor_of_lt _ _ hlt]

/-! ### Zero-posting accounts -/

theorem agrupar_preserva (rows : List FilaJoin) :
    ∀ (acc : List FilaResultado) (f : FilaResultado), f ∈ acc →
      (∀ r ∈ rows, claveJoin r ≠ claveResultado f) →
      f ∈ rows.foldl agruparFila acc := by
  induction rows with
  | nil => intro acc f hf _; exact hf
  | cons r rs ih =>
    intro acc f hf hno
    apply ih
    · unfold agruparFila
      split
      · have hfix : acumularFila r f = f := by
          unfold acumularFila
          rw [if_neg]
          intro hEq
          exact hno r (List.mem_cons_self r rs) hEq.symm
        rw [← hfix]
        exact List.mem_map_of_mem _ hf
      · exact List.mem_append_left _ hf
    · intro r2 hr2
      exact hno r2 (List.mem_cons_of_mem r hr2)

theorem agrupar_nueva (acc : List FilaResultado) (r0 : FilaJoin)
    (hacc : ∀ f ∈ acc, claveResultado f ≠ claveJoin r0) :
    (⟨r0.cuenta.codigo_cuenta, r0.cuenta.nombre_cuenta, r0.cuenta.tipo_cuenta,
      filaDebe r0, filaHaber r0⟩ : FilaResultado) ∈ agruparFila acc r0 := by
  unfold agruparFila
  rw [if_neg]
  · exact List.mem_append_right _ (by simp)
  · intro hmem
    rcases List.mem_map.1 hmem with ⟨f, hf, hfe⟩
    exact hacc f hf hfe

theorem fold_agrupar_con_unica (l1 l2 : List FilaJoin) (r0 : FilaJoin)
    (h1 : ∀ r ∈ l1, claveJoin r ≠ claveJoin r0)
    (h2 : ∀ r ∈ l2, claveJoin r ≠ claveJoin r0) :
    (⟨r0.cuenta.codigo_cuenta, r0.cuenta.nombre_cuenta, r0.cuenta.tipo_cuenta,
      filaDebe r0, filaHaber r0⟩ : FilaResultado) ∈
      (l1 ++ r0 :: l2).foldl agruparFila [] := by
  rw [List.foldl_append, List.foldl_cons]
  apply agrupar_preserva
  · apply agrupar_nueva
    intro f hf
    rcases clave_of_foldl_agrupar l1 [] (claveResultado f)
        (List.mem_map_of_mem _ hf) with h | ⟨r, hr, hEq⟩
    · cases h
    · rw [hEq]
      exact h1 r hr
  · intro r hr
    exact h2 r hr

theorem filasCuenta_sin (db : DB) (c : CatalogoCuentas)
    (hna : ∀ a ∈ db.asientos, a.id_cuenta ≠ c.id_cuenta) :
    filasCuenta db c = [⟨c, none, none⟩] := by
  unfold filasCuenta
  have hnil : db.asientos.filter (fun a => a.id_cuenta == c.id_cuenta) = [] := by
    rw [List.filter_eq_nil_iff]
    intro a ha
    simp
    exact hna a ha
  rw [hnil]

theorem filtro_decomp (db : DB) (fi ff : Option Fecha) (c : CatalogoCuentas)
    (hna : ∀ a ∈ db.asientos, a.id_cuenta ≠ c.id_cuenta) :
    ∀ cs : List CatalogoCuentas, c ∈ cs →
      cs.Pairwise (fun a b => a.codigo_cuenta ≠ b.codigo_cuenta) →
      ∃ l1 l2, (filasJoinAux db cs).filter (fun r => pasaFiltroFecha fi ff r.fecha) =
          l1 ++ (⟨c, none, none⟩ : FilaJoin) :: l2 ∧
        (∀ r ∈ l1, claveJoin r ≠ claveJoin ⟨c, none, none⟩) ∧
        (∀ r ∈ l2, claveJoin r ≠ claveJoin ⟨c, none, none⟩) := by
  intro cs
  induction cs with
  | nil => intro hc; cases hc
  | cons c2 cs ih =>
    intro hc hp
    have hp2 := List.pairwise_cons.1 hp
    unfold filasJoinAux
    rw [List.filter_append]
    rcases List.mem_cons.1 hc with rfl | hc2
    · rw [filasCuenta_sin db c hna]
      have hone : List.filter (fun r => pasaFiltroFecha fi ff r.fecha)
          [(⟨c, none, none⟩ : FilaJoin)] = [⟨c, none, none⟩] := by
        simp [pasaFiltroFecha_none]
      rw [hone]
      refine ⟨[], (filasJoinAux db cs).filter (fun r => pasaFiltroFecha fi ff r.fecha),
        rfl, ?_, ?_⟩
      · intro r hr
        cases hr
      intro r hr hEq
      have hr2 := (List.mem_filter.1 hr).1
      rcases mem_filasJoinAux db cs r hr2 with ⟨c3, hc3, hrc3⟩
      have hcu := cuenta_of_filasCuenta db c3 r hrc3
      have hcod := congrArg Prod.fst hEq
      simp only [claveJoin, hcu] at hcod
      exact hp2.1 c3 hc3 hcod.symm
    · obtain ⟨l1, l2, hEq, hl1, hl2⟩ := ih hc2 hp2.2
      refine ⟨(filasCuenta db c2).filter (fun r => pasaFiltroFecha fi ff r.fecha) ++ l1,
        l2, ?_, ?_, hl2⟩
      · rw [hEq, List.append_assoc]
      · intro r hr
        rcases List.mem_append.1 hr with hr3 | hr3
        · have hr4 := (List.mem_filter.1 hr3).1
          have hcu := cuenta_of_filasCuenta db c2 r hr4
          intro hEq2
          have hcod := congrArg Prod.fst hEq2
          simp only [claveJoin, hcu] at hcod
          exact hp2.1 c hc2 hcod
        · exact hl1 r hr3

theorem fila_cero_mem_resultados (db : DB) (fi ff : Option Fecha) (c : CatalogoCuentas)
    (hnd : db.cuentas.Pairwise (fun a b => a.codigo_cuenta ≠ b.codigo_cuenta))
    (hc : c ∈ db.cuentas)
    (hna : ∀ a ∈ db.asientos, a.id_cuenta ≠ c.id_cuenta) :
    (⟨c.codigo_cuenta, c.nombre_cuenta, c.tipo_cuenta, 0, 0⟩ : FilaResultado) ∈
      resultadosCuentas db fi ff := by
  obtain ⟨l1, l2, hEq, hl1, hl2⟩ := filtro_decomp db fi ff c hna db.cuentas hc hnd
  unfold resultadosCuentas filasJoin
  rw [hEq]
  exact fold_agrupar_con_unica l1 l2 ⟨c, none, none⟩ hl1 hl2

theorem actualizarMayor_sub_mono (inc : Bool) (k2 : List Char) (fila : FilaResultado)
    (m : MayorAcc) (s : Subcuenta) (h : s ∈ m.subcuentas) :
    s ∈ (actualizarMayor inc k2 fila m).subcuentas := by
  unfold actualizarMayor
  split
  · dsimp only
    split
    · exact List.mem_append_left _ h
    · exact h
  · exact h

theorem procesar_preserva_sub (db : DB) (dig : ℕ) (inc : Bool)
    (dict : List MayorAcc) (fila : FilaResultado) (k : List Char) (s : Subcuenta)
    (h : ∃ m ∈ dict, m.codigo_mayor = k ∧ s ∈ m.subcuentas) :
    ∃ m ∈ procesarFila db dig inc dict fila, m.codigo_mayor = k ∧ s ∈ m.subcuentas := by
  obtain ⟨m0, hm0, hk, hs⟩ := h
  unfold procesarFila
  dsimp only
  refine ⟨actualizarMayor inc (codigoMayor dig fila.codigo_cuenta) fila m0,
    List.mem_map_of_mem _ ?_, ?_, actualizarMayor_sub_mono _ _ _ _ _ hs⟩
  · split
    · exact hm0
    · exact List.mem_append_left _ hm0
  · rw [actualizarMayor_codigo]
    exact hk

theorem procesar_crea_sub (db : DB) (dig : ℕ) (dict : List MayorAcc)
    (fila : FilaResultado) :
    ∃ m ∈ procesarFila db dig true dict fila,
      m.codigo_mayor = codigoMayor dig fila.codigo_cuenta ∧
      subcuentaDeFila fila ∈ m.subcuentas := by
  unfold procesarFila
  dsimp only
  have hex : ∃ m0 ∈ (if codigoMayor dig fila.codigo_cuenta ∈ dict.map (·.codigo_mayor)
      then dict
      else dict ++ [⟨codigoMayor dig fila.codigo_cuenta,
        nombreMayorDe db (codigoMayor dig fila.codigo_cuenta), 0, 0, 0, []⟩]),
      m0.codigo_mayor = codigoMayor dig fila.codigo_cuenta := by
    split
    · rename_i h
      rcases List.mem_map.1 h with ⟨m0, hm0, hkey⟩
      exact ⟨m0, hm0, hkey⟩
    · exact ⟨_, List.mem_append_right _ (List.mem_singleton.2 rfl), rfl⟩
  obtain ⟨m0, hm0, hk⟩ := hex
  refine ⟨actualizarMayor true (codigoMayor dig fila.codigo_cuenta) fila m0,
    List.mem_map_of_mem _ hm0, ?_, ?_⟩
  · rw [actualizarMayor_codigo]
    exact hk
  · unfold actualizarMayor
    rw [if_pos hk]
    simp

theorem fold_preserva_sub (db : DB) (dig : ℕ) (inc : Bool) (k : List Char) (s : Subcuenta) :
    ∀ (rows : List FilaResultado) (dict : List MayorAcc),
      (∃ m ∈ dict, m.codigo_mayor = k ∧ s ∈ m.subcuentas) →
      ∃ m ∈ rows.foldl (procesarFila db dig inc) dict,
        m.codigo_mayor = k ∧ s ∈ m.subcuentas := by
  intro rows
  induction rows with
  | nil => intro dict h; exact h
  | cons f fs ih =>
    intro dict h
    exact ih _ (procesar_preserva_sub db dig inc dict f k s h)

theorem sub_mem_mayoresDict (db : DB) (dig : ℕ) (filas : List FilaResultado)
    (fila : FilaResultado) (hf : fila ∈ filas) :
    ∀ dict : List MayorAcc,
      ∃ m ∈ filas.foldl (procesarFila db dig true) dict,
        m.codigo_mayor = codigoMayor dig fila.codigo_cuenta ∧
        subcuentaDeFila fila ∈ m.subcuentas := by
  induction filas with
  | nil => cases hf
  | cons f fs ih =>
    intro dict
    rcases List.mem_cons.1 hf with rfl | hf2
    · exact fold_preserva_sub db dig true _ _ fs _ (procesar_crea_sub db dig dict fila)
    · exact ih hf2 _

/-- C3: an account of the chart without any journal entries still appears
in the ledger report — its grouped query row survives with coalesced
totals 0/0, its group is present, and with detail requested it is listed
as a subaccount with debit, credit and balance all 0. -/
theorem c3_cuenta_sin_movimientos (db : DB) (digitos : ℤ) (fi ff : Option Fecha)
    (incluir : Bool) (hoy : Fecha) (rep : LibroMayor) (c : CatalogoCuentas)
    (hnd : db.cuentas.Pairwise (fun a b => a.codigo_cuenta ≠ b.codigo_cuenta))
    (h1 : 1 ≤ digitos) (h2 : digitos ≤ 10)
    (hc : c ∈ db.cuentas)
    (hna : ∀ a ∈ db.asientos, a.id_cuenta ≠ c.id_cuenta)
    (hrep : generarLibroMayorCompleto db digitos fi ff incluir hoy = .ok rep) :
    (⟨c.codigo_cuenta, c.nombre_cuenta, c.tipo_cuenta, 0, 0⟩ : FilaResultado) ∈
        resultadosCuentas db fi ff ∧
    ∃ m ∈ rep.mayores, m.codigo_mayor = codigoMayor digitos.toNat c.codigo_cuenta ∧
      (incluir = true →
        (⟨c.codigo_cuenta, c.nombre_cuenta, c.tipo_cuenta, 0, 0, 0⟩ : Subcuenta) ∈
          m.subcuentas) := by
  obtain ⟨hrep2, _⟩ := generar_ok db digitos fi ff incluir hoy rep hrep
  subst hrep2
  have hfila := fila_cero_mem_resultados db fi ff c hnd hc hna
  refine ⟨hfila, ?_⟩
  have hsub0 : subcuentaDeFila
      (⟨c.codigo_cuenta, c.nombre_cuenta, c.tipo_cuenta, 0, 0⟩ : FilaResultado) =
      (⟨c.codigo_cuenta, c.nombre_cuenta, c.tipo_cuenta, 0, 0, 0⟩ : Subcuenta) := by
    unfold subcuentaDeFila
    simp [roundB64_zero]
  cases incluir with
  | false =>
    have hkey := codigo_mem_foldl_of_fila db digitos.toNat false
      (resultadosCuentas db fi ff) _ hfila []
    rcases List.mem_map.1 hkey with ⟨m0, hm0, hkeq⟩
    refine ⟨mayorAJson false m0,
      json_mem_armarReporte db digitos fi ff false hoy m0 hm0, hkeq, ?_⟩
    intro hfalse
    cases hfalse
  | true =>
    obtain ⟨m0, hm0, hk, hs⟩ :=
      sub_mem_mayoresDict db digitos.toNat (resultadosCuentas db fi ff) _ hfila []
    refine ⟨mayorAJson true m0,
      json_mem_armarReporte db digitos fi ff true hoy m0 hm0, hk, ?_⟩
    intro _
    show _ ∈ (mayorAJson true m0).subcuentas
    have hjs : (mayorAJson true m0).subcuentas =
        m0.subcuentas.insertionSort subcuentaLe := rfl
    rw [hjs]
    refine (List.mem_insertionSort subcuentaLe).2 ?_
    rw [← hsub0]
    exact hs

/-! ### Bucket names -/

theorem nombre_mayoresDict (db : DB) (dig : ℕ) (inc : Bool) :
    ∀ (filas : List FilaResultado) (dict : List MayorAcc),
      (∀ m ∈ dict, m.nombre_mayor = nombreMayorDe db m.codigo_mayor) →
      ∀ m ∈ filas.foldl (procesarFila db dig inc) dict,
        m.nombre_mayor = nombreMayorDe db m.codigo_mayor := by
  intro filas
  induction filas with
  | nil => intro dict hdict; exact hdict
  | cons f fs ih =>
    intro dict hdict
    apply ih
    intro m hm
    unfold procesarFila at hm
    dsimp only at hm
    rcases List.mem_map.1 hm with ⟨m0, hm0, rfl⟩
    rw [actualizarMayor_nombre, actualizarMayor_codigo]
    split at hm0
    · exact hdict m0 hm0
    · rcases List.mem_append.1 hm0 with h | h
      · exact hdict m0 h
      · simp at h
        subst h
        rfl

/-- C8: the display name of every group of a generated report is the
name of the account whose code equals the group code exactly when such an
account exists, and the synthetic string built from the group code
("Cuenta Mayor {codigo}", which the spec renders as
"Account Group {key}") otherwise. -/
theorem c8_nombre_de_mayor (db : DB) (digitos : ℤ) (fi ff : Option Fecha)
    (incluir : Bool) (hoy : Fecha) (rep : LibroMayor) (m : MayorJson)
    (hrep : generarLibroMayorCompleto db digitos fi ff incluir hoy = .ok rep)
    (hm : m ∈ rep.mayores) :
    (∃ c ∈ db.cuentas, c.codigo_cuenta = m.codigo_mayor ∧
      m.nombre_mayor = c.nombre_cuenta) ∨
    ((∀ c ∈ db.cuentas, c.codigo_cuenta ≠ m.codigo_mayor) ∧
      m.nombre_mayor = "Cuenta Mayor " ++ String.mk m.codigo_mayor) := by
  obtain ⟨hrep2, _⟩ := generar_ok db digitos fi ff incluir hoy rep hrep
  subst hrep2
  obtain ⟨m0, hm0, rfl⟩ := mem_mayores_armarReporte db digitos fi ff incluir hoy m hm
  have hname := nombre_mayoresDict db digitos.toNat incluir
    (resultadosCuentas db fi ff) [] (by intro m2 hm2; cases hm2) m0 hm0
  unfold nombreMayorDe at hname
  show (∃ c ∈ db.cuentas, c.codigo_cuenta = m0.codigo_mayor ∧
      m0.nombre_mayor = c.nombre_cuenta) ∨
    ((∀ c ∈ db.cuentas, c.codigo_cuenta ≠ m0.codigo_mayor) ∧
      m0.nombre_mayor = "Cuenta Mayor " ++ String.mk m0.codigo_mayor)
  cases hfind : findCuentaPorCodigo db m0.codigo_mayor with
  | some c =>
    rw [hfind] at hname
    left
    refine ⟨c, ?_, ?_, hname⟩
    · exact List.mem_of_find?_eq_some hfind
    · have := List.find?_some hfind
      simpa using this
  | none =>
    rw [hfind] at hname
    right
    refine ⟨?_, hname⟩
    intro c hc hEq
    have := List.find?_eq_none.1 hfind c hc
    simp at this
    exact this hEq

/-! ### Accounts whose every posting falls outside the range -/

theorem filasCuenta_con (db : DB) (c : CatalogoCuentas)
    (hhas : ∃ a ∈ db.asientos, a.id_cuenta = c.id_cuenta)
    (r : FilaJoin) (hr : r ∈ filasCuenta db c) :
    ∃ x ∈ db.asientos, x.id_cuenta = c.id_cuenta ∧
      r = ⟨c, some x, (findTransaccion db x.id_transaccion).map (·.fecha_transaccion)⟩ := by
  unfold filasCuenta at hr
  cases hfil : db.asientos.filter (fun a => a.id_cuenta == c.id_cuenta) with
  | nil =>
    obtain ⟨a, ha, hid⟩ := hhas
    have hmem : a ∈ db.asientos.filter (fun a => a.id_cuenta == c.id_cuenta) :=
      List.mem_filter.2 ⟨ha, by simp [hid]⟩
    rw [hfil] at hmem
    cases hmem
  | cons a resto =>
    rw [hfil] at hr
    rcases List.mem_map.1 hr with ⟨x, hx, rfl⟩
    have hx2 : x ∈ db.asientos.filter (fun a => a.id_cuenta == c.id_cuenta) := by
      rw [hfil]
      exact hx
    obtain ⟨hmem, hpred⟩ := List.mem_filter.1 hx2
    exact ⟨x, hmem, by simpa using hpred, rfl⟩

/-- C4 (amended): under the outer-join WHERE semantics of the query, an
account that has postings but whose every posting belongs to a
transaction rejected by the date filter loses all its joined rows and is
dropped by the GROUP BY — it contributes no result row at all, so it is
excluded from the report (accounts with no postings at all are the ones
kept with zero totals). -/
theorem c4_cuenta_fuera_de_rango (db : DB) (fi ff : Option Fecha) (c : CatalogoCuentas)
    (hnd : db.cuentas.Pairwise (fun a b => a.codigo_cuenta ≠ b.codigo_cuenta))
    (hc : c ∈ db.cuentas)
    (hhas : ∃ a ∈ db.asientos, a.id_cuenta = c.id_cuenta)
    (hout : ∀ a ∈ db.asientos, a.id_cuenta = c.id_cuenta →
      ∃ t, findTransaccion db a.id_transaccion = some t ∧
        pasaFiltroFecha fi ff (some t.fecha_transaccion) = false) :
    ∀ fila ∈ resultadosCuentas db fi ff, fila.codigo_cuenta ≠ c.codigo_cuenta := by
  intro fila hfila hEq
  unfold resultadosCuentas at hfila
  rcases clave_of_foldl_agrupar _ [] (claveResultado fila)
      (List.mem_map_of_mem claveResultado hfila) with h | ⟨r, hr, hk⟩
  · cases h
  · obtain ⟨hrJ, hrP⟩ := List.mem_filter.1 hr
    rcases mem_filasJoinAux db db.cuentas r hrJ with ⟨c2, hc2, hrc2⟩
    have hcu := cuenta_of_filasCuenta db c2 r hrc2
    have hcod := congrArg Prod.fst hk
    simp only [claveResultado, claveJoin] at hcod
    rw [hcu] at hcod
    have hc2c : c2 = c :=
      cuenta_unica_por_codigo db.cuentas hnd c2 hc2 c hc (by rw [← hcod, hEq])
    subst hc2c
    obtain ⟨x, hxmem, hxid, hxr⟩ := filasCuenta_con db c2 hhas r hrc2
    obtain ⟨t, hft, hfp⟩ := hout x hxmem hxid
    have hfecha : r.fecha = some t.fecha_transaccion := by
      rw [hxr]
      dsimp only
      rw [hft]
      rfl
    rw [hfecha] at hrP
    rw [hfp] at hrP
    cases hrP

/-! ### Exact sums across buckets -/

theorem nodup_codigo_procesarFila (db : DB) (dig : ℕ) (inc : Bool)
    (dict : List MayorAcc) (fila : FilaResultado)
    (h : (dict.map (·.codigo_mayor)).Nodup) :
    ((procesarFila db dig inc dict fila).map (·.codigo_mayor)).Nodup := by
  rw [map_codigo_procesarFila]
  split
  · exact h
  · rename_i hnot
    refine List.nodup_append.2 ⟨h, List.nodup_singleton _, ?_⟩
    intro a ha hb
    simp at hb
    subst hb
    exact hnot ha

theorem sums_update (inc : Bool) (clave : List Char) (fila : FilaResultado) :
    ∀ l : List MayorAcc, clave ∈ l.map (·.codigo_mayor) →
      (l.map (·.codigo_mayor)).Nodup →
      ((l.map (actualizarMayor inc clave fila)).map (·.total_debe)).sum =
        (l.map (·.total_debe)).sum + fila.total_debe ∧
      ((l.map (actualizarMayor inc clave fila)).map (·.total_haber)).sum =
        (l.map (·.total_haber)).sum + fila.total_haber := by
  intro l
  induction l with
  | nil => intro h; simp at h
  | cons m tail ih =>
    intro hmem hnd
    by_cases hk : m.codigo_mayor = clave
    · have htail : ∀ x ∈ tail, actualizarMayor inc clave fila x = x := by
        intro x hx
        unfold actualizarMayor
        rw [if_neg]
        intro hxk
        have hbad : m.codigo_mayor ∈ tail.map (·.codigo_mayor) := by
          rw [hk, ← hxk]
          exact List.mem_map_of_mem _ hx
        exact (List.nodup_cons.1 hnd).1 hbad
      have hmap : tail.map (actualizarMayor inc clave fila) = tail := by
        have h2 : tail.map (actualizarMayor inc clave fila) = tail.map id :=
          List.map_congr_left (fun a ha => htail a ha)
        rw [h2, List.map_id]
      have hhd : (actualizarMayor inc clave fila m).total_debe =
          m.total_debe + fila.total_debe := by
        unfold actualizarMayor
        rw [if_pos hk]
      have hhh : (actualizarMayor inc clave fila m).total_haber =
          m.total_haber + fila.total_haber := by
        unfold actualizarMayor
        rw [if_pos hk]
      constructor <;>
        · simp only [List.map_cons, List.sum_cons, hmap, hhd, hhh]
          ring
    · have hm2 : clave ∈ tail.map (·.codigo_mayor) := by
        have hmem2 := hmem
        simp only [List.map_cons, List.mem_cons, List.mem_map] at hmem2
        rcases hmem2 with h2 | h2
        · exact absurd h2.symm hk
        · exact List.mem_map.2 h2
      have hnd2 := (List.nodup_cons.1 hnd).2
      obtain ⟨ihd, ihh⟩ := ih hm2 hnd2
      have hfix : actualizarMayor inc clave fila m = m := by
        unfold actualizarMayor
        rw [if_neg hk]
      constructor <;>
        · simp only [List.map_cons, List.sum_cons, hfix, ihd, ihh]
          ring

theorem procesar_sums (db : DB) (dig : ℕ) (inc : Bool) (dict : List MayorAcc)
    (fila : FilaResultado) (hnd : (dict.map (·.codigo_mayor)).Nodup) :
    ((procesarFila db dig inc dict fila).map (·.total_debe)).sum =
      (dict.map (·.total_debe)).sum + fila.total_debe ∧
    ((procesarFila db dig inc dict fila).map (·.total_haber)).sum =
      (dict.map (·.total_haber)).sum + fila.total_haber := by
  unfold procesarFila
  dsimp only
  split
  · rename_i h
    exact sums_update inc _ fila dict h hnd
  · rename_i h
    have hmem : codigoMayor dig fila.codigo_cuenta ∈
        ((dict ++ [(⟨codigoMayor dig fila.codigo_cuenta,
          nombreMayorDe db (codigoMayor dig fila.codigo_cuenta), 0, 0, 0, []⟩ : MayorAcc)]).map
          (·.codigo_mayor)) := by
      simp
    have hnd1 : (((dict ++ [(⟨codigoMayor dig fila.codigo_cuenta,
        nombreMayorDe db (codigoMayor dig fila.codigo_cuenta), 0, 0, 0, []⟩ : MayorAcc)]).map
        (·.codigo_mayor))).Nodup := by
      rw [List.map_append]
      refine List.nodup_append.2 ⟨hnd, by simp, ?_⟩
      intro a ha hb
      simp at hb
      subst hb
      exact h ha
    obtain ⟨hd, hh⟩ := sums_update inc _ fila _ hmem hnd1
    rw [hd, hh]
    constructor <;>
      · rw [List.map_append, List.sum_append]
        simp

theorem sums_foldl (db : DB) (dig : ℕ) (inc : Bool) :
    ∀ (filas : List FilaResultado) (dict : List MayorAcc),
      (dict.map (·.codigo_mayor)).Nodup →
      ((filas.foldl (procesarFila db dig inc) dict).map (·.codigo_mayor)).Nodup ∧
      ((filas.foldl (procesarFila db dig inc) dict).map (·.total_debe)).sum =
        (dict.map (·.total_debe)).sum + (filas.map (·.total_debe)).sum ∧
      ((filas.foldl (procesarFila db dig inc) dict).map (·.total_haber)).sum =
        (dict.map (·.total_haber)).sum + (filas.map (·.total_haber)).sum := by
  intro filas
  induction filas with
  | nil => intro dict hnd; exact ⟨hnd, by simp, by simp⟩
  | cons f fs ih =>
    intro dict hnd
    have hnd2 := nodup_codigo_procesarFila db dig inc dict f hnd
    obtain ⟨hstepd, hsteph⟩ := procesar_sums db dig inc dict f hnd
    obtain ⟨ihn, ihd, ihh⟩ := ih (procesarFila db dig inc dict f) hnd2
    refine ⟨ihn, ?_, ?_⟩
    · simp only [List.foldl_cons, List.map_cons, List.sum_cons]
      rw [ihd, hstepd]
      ring
    · simp only [List.foldl_cons, List.map_cons, List.sum_cons]
      rw [ihh, hsteph]
      ring

/-! ### Conservation of bucket totals -/

theorem sum_map_sub (l : List FilaResultado) :
    (l.map (fun f => f.total_debe - f.total_haber)).sum =
      (l.map (·.total_debe)).sum - (l.map (·.total_haber)).sum := by
  induction l with
  | nil => simp
  | cons f fs ih =>
    simp only [List.map_cons, List.sum_cons, ih]
    ring

theorem invariante_update (dig : ℕ) (inc : Bool) (fila : FilaResultado)
    (pre : List FilaResultado) (m0 : MayorAcc)
    (hk : m0.codigo_mayor = codigoMayor dig fila.codigo_cuenta)
    (hP : invarianteMayor dig inc m0 pre) :
    invarianteMayor dig inc
      (actualizarMayor inc (codigoMayor dig fila.codigo_cuenta) fila m0)
      (pre ++ [fila]) := by
  obtain ⟨hd, hh, hs, hsub⟩ := hP
  have hupd : actualizarMayor inc (codigoMayor dig fila.codigo_cuenta) fila m0 =
      { m0 with
        total_debe := m0.total_debe + fila.total_debe,
        total_haber := m0.total_haber + fila.total_haber,
        saldo := m0.saldo + (fila.total_debe - fila.total_haber),
        subcuentas :=
          if inc then m0.subcuentas ++ [subcuentaDeFila fila] else m0.subcuentas } := by
    unfold actualizarMayor
    rw [if_pos hk]
  rw [hupd]
  unfold invarianteMayor
  dsimp only
  have hp : (codigoMayor dig fila.codigo_cuenta == m0.codigo_mayor) = true := by
    simp [hk]
  have hfil : (pre ++ [fila]).filter
      (fun f => codigoMayor dig f.codigo_cuenta == m0.codigo_mayor) =
      pre.filter (fun f => codigoMayor dig f.codigo_cuenta == m0.codigo_mayor) ++ [fila] := by
    rw [List.filter_append]
    simp [List.filter_cons, hp]
  rw [hfil]
  refine ⟨?_, ?_, ?_, ?_⟩
  · rw [List.map_append, List.sum_append, ← hd]
    simp
  · rw [List.map_append, List.sum_append, ← hh]
    simp
  · rw [List.map_append, List.sum_append, ← hs]
    simp
  · cases inc with
    | false => simpa using hsub
    | true =>
      simp only [if_true] at hsub ⊢
      rw [List.map_append, hsub]
      rfl

theorem invariante_skip (dig : ℕ) (inc : Bool) (fila : FilaResultado)
    (pre : List FilaResultado) (m0 : MayorAcc)
    (hk : m0.codigo_mayor ≠ codigoMayor dig fila.codigo_cuenta)
    (hP : invarianteMayor dig inc m0 pre) :
    invarianteMayor dig inc
      (actualizarMayor inc (codigoMayor dig fila.codigo_cuenta) fila m0)
      (pre ++ [fila]) := by
  have hfix : actualizarMayor inc (codigoMayor dig fila.codigo_cuenta) fila m0 = m0 := by
    unfold actualizarMayor
    rw [if_neg hk]
  rw [hfix]
  obtain ⟨hd, hh, hs, hsub⟩ := hP
  have hp : (codigoMayor dig fila.codigo_cuenta == m0.codigo_mayor) = false := by
    simp only [beq_eq_false_iff_ne]
    exact Ne.symm hk
  have hfil : (pre ++ [fila]).filter
      (fun f => codigoMayor dig f.codigo_cuenta == m0.codigo_mayor) =
      pre.filter (fun f => codigoMayor dig f.codigo_cuenta == m0.codigo_mayor) := by
    rw [List.filter_append]
    simp [List.filter_cons, hp]
  unfold invarianteMayor
  rw [hfil]
  exact ⟨hd, hh, hs, hsub⟩

theorem invariante_nuevo (db : DB) (dig : ℕ) (inc : Bool) (fila : FilaResultado)
    (pre : List FilaResultado)
    (hnew : ∀ f ∈ pre,
      codigoMayor dig f.codigo_cuenta ≠ codigoMayor dig fila.codigo_cuenta) :
    invarianteMayor dig inc
      (⟨codigoMayor dig fila.codigo_cuenta,
        nombreMayorDe db (codigoMayor dig fila.codigo_cuenta), 0, 0, 0, []⟩ : MayorAcc)
      pre := by
  unfold invarianteMayor
  dsimp only
  have hfil : pre.filter (fun f =>
      codigoMayor dig f.codigo_cuenta == codigoMayor dig fila.codigo_cuenta) = [] := by
    rw [List.filter_eq_nil_iff]
    intro f hf
    simp only [beq_iff_eq]
    exact hnew f hf
  rw [hfil]
  simp

theorem invariante_paso (db : DB) (dig : ℕ) (inc : Bool) (dict : List MayorAcc)
    (fila : FilaResultado) (pre : List FilaResultado)
    (hcov : ∀ f ∈ pre, codigoMayor dig f.codigo_cuenta ∈ dict.map (·.codigo_mayor))
    (hinv : ∀ m ∈ dict, invarianteMayor dig inc m pre) :
    (∀ f ∈ pre ++ [fila], codigoMayor dig f.codigo_cuenta ∈
      (procesarFila db dig inc dict fila).map (·.codigo_mayor)) ∧
    (∀ m ∈ procesarFila db dig inc dict fila,
      invarianteMayor dig inc m (pre ++ [fila])) := by
  constructor
  · intro f hf
    rcases List.mem_append.1 hf with h | h
    · exact codigo_mono_procesarFila db dig inc dict fila _ (hcov f h)
    · simp at h
      subst h
      exact codigo_mem_procesarFila db dig inc dict f
  · intro m hm
    unfold procesarFila at hm
    dsimp only at hm
    rcases List.mem_map.1 hm with ⟨m0, hm0, rfl⟩
    by_cases hk : m0.codigo_mayor = codigoMayor dig fila.codigo_cuenta
    · apply invariante_update dig inc fila pre m0 hk
      split at hm0
      · exact hinv m0 hm0
      · rcases List.mem_append.1 hm0 with h | h
        · exact hinv m0 h
        · simp at h
          subst h
          apply invariante_nuevo db dig inc fila pre
          intro f hf hEq
          rename_i hnot
          exact hnot (hEq ▸ hcov f hf)
    · apply invariante_skip dig inc fila pre m0 hk
      split at hm0
      · exact hinv m0 hm0
      · rcases List.mem_append.1 hm0 with h | h
        · exact hinv m0 h
        · simp at h
          subst h
          exact absurd rfl hk

theorem invariante_mayoresDict (db : DB) (dig : ℕ) (inc : Bool) :
    ∀ (filas : List FilaResultado) (dict : List MayorAcc) (pre : List FilaResultado),
      (∀ f ∈ pre, codigoMayor dig f.codigo_cuenta ∈ dict.map (·.codigo_mayor)) →
      (∀ m ∈ dict, invarianteMayor dig inc m pre) →
      ∀ m ∈ filas.foldl (procesarFila db dig inc) dict,
        invarianteMayor dig inc m (pre ++ filas) := by
  intro filas
  induction filas with
  | nil =>
    intro dict pre hcov hinv m hm
    rw [List.append_nil]
    exact hinv m hm
  | cons f fs ih =>
    intro dict pre hcov hinv m hm
    obtain ⟨hcov2, hinv2⟩ := invariante_paso db dig inc dict f pre hcov hinv
    have hres := ih (procesarFila db dig inc dict f) (pre ++ [f]) hcov2 hinv2 m hm
    rw [List.append_assoc] at hres
    exact hres

theorem armar_total_debe (db : DB) (digitos : ℤ) (fi ff : Option Fecha) (inc : Bool)
    (hoy : Fecha) :
    (armarReporte db digitos fi ff inc hoy).resumen.total_debe_general =
      roundB64 (((mayoresDict db digitos.toNat inc (resultadosCuentas db fi ff)).map
        (·.total_debe)).sum) := by
  unfold armarReporte
  dsimp only
  congr 1
  unfold ordenarMayores
  exact List.Perm.sum_eq (List.Perm.map _ (List.perm_insertionSort mayorAccLe _))

theorem armar_total_haber (db : DB) (digitos : ℤ) (fi ff : Option Fecha) (inc : Bool)
    (hoy : Fecha) :
    (armarReporte db digitos fi ff inc hoy).resumen.total_haber_general =
      roundB64 (((mayoresDict db digitos.toNat inc (resultadosCuentas db fi ff)).map
        (·.total_haber)).sum) := by
  unfold armarReporte
  dsimp only
  congr 1
  unfold ordenarMayores
  exact List.Perm.sum_eq (List.Perm.map _ (List.perm_insertionSort mayorAccLe _))

/-- C2 (amended): per-account and per-group accumulation is exact decimal
arithmetic — the bucket grand totals are the exact rational sums of the
per-account totals — but the monetary fields placed in the returned JSON
report are `float(...)` (binary64) images of those decimals, which does
introduce binary-float representation error for values such as 0.10 (see
the counterexample). -/
theorem c2_aritmetica_decimal (db : DB) (digitos : ℤ) (fi ff : Option Fecha)
    (incluir : Bool) (hoy : Fecha) :
    (armarReporte db digitos fi ff incluir hoy).mayores =
      (ordenarMayores (mayoresDict db digitos.toNat incluir
        (resultadosCuentas db fi ff))).map (mayorAJson incluir) ∧
    (armarReporte db digitos fi ff incluir hoy).resumen.total_debe_general =
      roundB64 (((mayoresDict db digitos.toNat incluir
        (resultadosCuentas db fi ff)).map (·.total_debe)).sum) ∧
    (armarReporte db digitos fi ff incluir hoy).resumen.total_haber_general =
      roundB64 (((mayoresDict db digitos.toNat incluir
        (resultadosCuentas db fi ff)).map (·.total_haber)).sum) ∧
    ((mayoresDict db digitos.toNat incluir (resultadosCuentas db fi ff)).map
      (·.total_debe)).sum = ((resultadosCuentas db fi ff).map (·.total_debe)).sum ∧
    ((mayoresDict db digitos.toNat incluir (resultadosCuentas db fi ff)).map
      (·.total_haber)).sum = ((resultadosCuentas db fi ff).map (·.total_haber)).sum := by
  refine ⟨rfl, armar_total_debe db digitos fi ff incluir hoy,
    armar_total_haber db digitos fi ff incluir hoy, ?_, ?_⟩
  · have h := (sums_foldl db digitos.toNat incluir (resultadosCuentas db fi ff) []
      (by simp)).2.1
    unfold mayoresDict
    simpa using h
  · have h := (sums_foldl db digitos.toNat incluir (resultadosCuentas db fi ff) []
      (by simp)).2.2
    unfold mayoresDict
    simpa using h

/-- C6 (amended): the summary counts the buckets and carries the current
date, and its totals are the float images of the exact accumulated sums;
`diferencia` equals the absolute value of the float difference of the two
reported totals (hence is always nonnegative and never suppressed), but —
because the reported fields are floats — it can differ from the exact
decimal `|Σ debits − Σ credits|`, and the reported summary total can
differ from the sum of the reported per-group floats (see the
counterexample). -/
theorem c6_resumen (db : DB) (digitos : ℤ) (fi ff : Option Fecha) (incluir : Bool)
    (hoy : Fecha) :
    (armarReporte db digitos fi ff incluir hoy).resumen.total_cuentas =
      (armarReporte db digitos fi ff incluir hoy).mayores.length ∧
    (armarReporte db digitos fi ff incluir hoy).resumen.fecha_generacion = hoy ∧
    (armarReporte db digitos fi ff incluir hoy).resumen.total_debe_general =
      roundB64 (((mayoresDict db digitos.toNat incluir
        (resultadosCuentas db fi ff)).map (·.total_debe)).sum) ∧
    (armarReporte db digitos fi ff incluir hoy).resumen.total_haber_general =
      roundB64 (((mayoresDict db digitos.toNat incluir
        (resultadosCuentas db fi ff)).map (·.total_haber)).sum) ∧
    (armarReporte db digitos fi ff incluir hoy).resumen.diferencia =
      |roundB64 ((armarReporte db digitos fi ff incluir hoy).resumen.total_debe_general -
        (armarReporte db digitos fi ff incluir hoy).resumen.total_haber_general)| ∧
    0 ≤ (armarReporte db digitos fi ff incluir hoy).resumen.diferencia := by
  refine ⟨rfl, rfl, armar_total_debe db digitos fi ff incluir hoy,
    armar_total_haber db digitos fi ff incluir hoy, rfl, ?_⟩
  exact abs_nonneg _

/-- C7 (amended): with detail requested, conservation holds exactly at
the decimal accumulator level — every bucket's debit/credit totals are
the exact sums over its member result rows, its balance is the sum of the
member balances and equals debit minus credit to the last digit, and its
subaccount list is exactly those rows' records; the bucket is serialised
into the report, whose JSON fields are float images of these exact values
and can therefore differ from the sums of the reported per-subaccount
floats (see the counterexample). -/
theorem c7_conservacion (db : DB) (digitos : ℤ) (fi ff : Option Fecha) (hoy : Fecha)
    (m : MayorAcc)
    (hm : m ∈ mayoresDict db digitos.toNat true (resultadosCuentas db fi ff)) :
    m.saldo = m.total_debe - m.total_haber ∧
    m.total_debe = (((resultadosCuentas db fi ff).filter
      (fun f => codigoMayor digitos.toNat f.codigo_cuenta == m.codigo_mayor)).map
        (·.total_debe)).sum ∧
    m.total_haber = (((resultadosCuentas db fi ff).filter
      (fun f => codigoMayor digitos.toNat f.codigo_cuenta == m.codigo_mayor)).map
        (·.total_haber)).sum ∧
    m.saldo = (((resultadosCuentas db fi ff).filter
      (fun f => codigoMayor digitos.toNat f.codigo_cuenta == m.codigo_mayor)).map
        (fun f => f.total_debe - f.total_haber)).sum ∧
    m.subcuentas = ((resultadosCuentas db fi ff).filter
      (fun f => codigoMayor digitos.toNat f.codigo_cuenta == m.codigo_mayor)).map
        subcuentaDeFila ∧
    mayorAJson true m ∈ (armarReporte db digitos fi ff true hoy).mayores := by
  have hm2 := hm
  unfold mayoresDict at hm2
  have hP := invariante_mayoresDict db digitos.toNat true (resultadosCuentas db fi ff)
    [] [] (by intro f hf; cases hf) (by intro m2 hm3; cases hm3) m hm2
  rw [List.nil_append] at hP
  obtain ⟨hd, hh, hs, hsub⟩ := hP
  refine ⟨?_, hd, hh, hs,
    by simpa using hsub, json_mem_armarReporte db digitos fi ff true hoy m hm⟩
  rw [hs, sum_map_sub, ← hd, ← hh]

/-! ### Journal entry service rules -/

/-- C9: entry creation and update reject, with the business-rule error
(`InvalidEntry`), exactly those post-operation amounts where debit and
credit are both positive or both zero; a missing referenced transaction
or account is rejected with the reference error (`ReferenceNotFound`);
and every rejection leaves the committed store unchanged. -/
theorem c9_reglas_asiento (db : DB) (d : AsientoCreate) (aid : ℕ) (u : AsientoUpdate) :
    (findTransaccion db d.id_transaccion = none →
      createAsiento db d = .error (.refNotFound "Transacción no encontrada")) ∧
    ((findTransaccion db d.id_transaccion).isSome →
      findCuentaPorId db d.id_cuenta = none →
      createAsiento db d = .error (.refNotFound "Cuenta no encontrada")) ∧
    ((findTransaccion db d.id_transaccion).isSome →
      (findCuentaPorId db d.id_cuenta).isSome →
      (createAsiento db d = .error .invalidEntry ↔
        ((0 < d.debe ∧ 0 < d.haber) ∨ (d.debe = 0 ∧ d.haber = 0)))) ∧
    (∀ e, createAsiento db d = .error e → createAsientoState db d = db) ∧
    (∀ a, db.asientos.find? (fun x => x.id_asiento == aid) = some a →
      (∀ t, u.id_transaccion = some t → findTransaccion db t = none →
        updateAsiento db aid u = .error (.refNotFound "Transaction not found")) ∧
      ((∀ t, u.id_transaccion = some t → (findTransaccion db t).isSome) →
        ∀ cid, u.id_cuenta = some cid → findCuentaPorId db cid = none →
        updateAsiento db aid u = .error (.refNotFound "Account not found")) ∧
      ((∀ t, u.id_transaccion = some t → (findTransaccion db t).isSome) →
        (∀ cid, u.id_cuenta = some cid → (findCuentaPorId db cid).isSome) →
        (updateAsiento db aid u = .error .invalidEntry ↔
          ((0 < (aplicarUpdate a u).debe ∧ 0 < (aplicarUpdate a u).haber) ∨
            ((aplicarUpdate a u).debe = 0 ∧ (aplicarUpdate a u).haber = 0))))) ∧
    (∀ e, updateAsiento db aid u = .error e → updateAsientoState db aid u = db) := by
  refine ⟨?_, ?_, ?_, ?_, ?_, ?_⟩
  · intro h
    unfold createAsiento
    rw [h]
  · intro h1 h2
    unfold createAsiento
    cases ht : findTransaccion db d.id_transaccion with
    | none => rw [ht] at h1; cases h1
    | some t =>
      rw [h2]
  · intro h1 h2
    unfold createAsiento
    cases ht : findTransaccion db d.id_transaccion with
    | none => rw [ht] at h1; cases h1
    | some t =>
      cases hc : findCuentaPorId db d.id_cuenta with
      | none => rw [hc] at h2; cases h2
      | some c =>
        dsimp only
        unfold validateAsientoBusinessRules
        by_cases hb : (0 < d.debe ∧ 0 < d.haber) ∨ (d.debe = 0 ∧ d.haber = 0)
        · rw [if_pos hb]
          simp [hb]
        · rw [if_neg hb]
          simp [hb]
  · intro e he
    unfold createAsientoState
    rw [he]
  · intro a ha
    refine ⟨?_, ?_, ?_⟩
    · intro t ht hft
      unfold updateAsiento
      rw [ha, ht]
      dsimp only
      rw [hft]
      rfl
    · intro hok cid hcid hfc
      unfold updateAsiento
      rw [ha]
      have h1 : (match u.id_transaccion with
          | some t => (findTransaccion db t).isNone
          | none => false) = false := by
        cases ut : u.id_transaccion with
        | none => rfl
        | some t =>
          have hsome := hok t ut
          cases hft : findTransaccion db t with
          | none => rw [hft] at hsome; cases hsome
          | some tt => dsimp only; rw [hft]; rfl
      dsimp only
      rw [h1, hcid]
      dsimp only
      rw [hfc]
      rfl
    · intro hok1 hok2
      unfold updateAsiento
      rw [ha]
      have h1 : (match u.id_transaccion with
          | some t => (findTransaccion db t).isNone
          | none => false) = false := by
        cases ut : u.id_transaccion with
        | none => rfl
        | some t =>
          have hsome := hok1 t ut
          cases hft : findTransaccion db t with
          | none => rw [hft] at hsome; cases hsome
          | some tt => dsimp only; rw [hft]; rfl
      have h2 : (match u.id_cuenta with
          | some cid => (findCuentaPorId db cid).isNone
          | none => false) = false := by
        cases uc : u.id_cuenta with
        | none => rfl
        | some cid =>
          have hsome := hok2 cid uc
          cases hfc : findCuentaPorId db cid with
          | none => rw [hfc] at hsome; cases hsome
          | some cc => dsimp only; rw [hfc]; rfl
      dsimp only
      rw [h1, h2]
      simp only [Bool.false_eq_true, if_false]
      unfold validateAsientoBusinessRules
      by_cases hb : (0 < (aplicarUpdate a u).debe ∧ 0 < (aplicarUpdate a u).haber) ∨
          ((aplicarUpdate a u).debe = 0 ∧ (aplicarUpdate a u).haber = 0)
      · rw [if_pos hb]
        simp [hb]
      · rw [if_neg hb]
        simp [hb]
  · intro e he
    unfold updateAsientoState
    rw [he]

/-! ### Witnesses and counterexamples on concrete stores -/

section Concretos

attribute [local semireducible] Rat.add Rat.mul Rat.inv Rat.sub

set_option maxRecDepth 40000

/-- Witness for C1: the report of `dbCaja` at width 4 has the single
group `"1100"`, keyed by the account code itself. -/
theorem c1_clave_de_agrupacion_witness :
    (⟨['1', '1', '0', '0'], "Caja", 150, 0, 150, []⟩ : MayorJson).codigo_mayor.length =
      (4 : ℤ).toNat ∧
    ∃ c ∈ dbCaja.cuentas,
      (⟨['1', '1', '0', '0'], "Caja", 150, 0, 150, []⟩ : MayorJson).codigo_mayor =
        codigoMayor (4 : ℤ).toNat c.codigo_cuenta ∧
      ((4 : ℤ).toNat ≤ c.codigo_cuenta.length →
        (⟨['1', '1', '0', '0'], "Caja", 150, 0, 150, []⟩ : MayorJson).codigo_mayor =
          c.codigo_cuenta.take (4 : ℤ).toNat) ∧
      (c.codigo_cuenta.length < (4 : ℤ).toNat →
        (⟨['1', '1', '0', '0'], "Caja", 150, 0, 150, []⟩ : MayorJson).codigo_mayor =
          c.codigo_cuenta ++ List.replicate ((4 : ℤ).toNat - c.codigo_cuenta.length) '0') :=
  c1_clave_de_agrupacion dbCaja 4 none none false 10
    (armarReporte dbCaja 4 none none false 10) _ (by decide) (by decide) (by decide)
    (by decide)

/-- Counterexample for C2: a single posting of 0.10 — the summary's
reported debit total is the binary64 image of 0.10 and differs from the
exact decimal total. -/
theorem c2_contraejemplo :
    ((mayoresDict dbDecimo (4 : ℤ).toNat false (resultadosCuentas dbDecimo none none)).map
      (·.total_debe)).sum = 1 / 10 ∧
    (armarReporte dbDecimo 4 none none false 10).resumen.total_debe_general ≠ 1 / 10 := by
  constructor
  · decide
  · decide

/-- Witness for C3: the unposted account `"2100"` of `dbSinMovimiento`
appears in the report with zero totals. -/
theorem c3_cuenta_sin_movimientos_witness :
    (⟨['2', '1', '0', '0'], "Proveedores", "Pasivo", 0, 0⟩ : FilaResultado) ∈
      resultadosCuentas dbSinMovimiento none none ∧
    ∃ m ∈ (armarReporte dbSinMovimiento 4 none none true 10).mayores,
      m.codigo_mayor = codigoMayor (4 : ℤ).toNat ['2', '1', '0', '0'] ∧
      (true = true →
        (⟨['2', '1', '0', '0'], "Proveedores", "Pasivo", 0, 0, 0⟩ : Subcuenta) ∈
          m.subcuentas) :=
  c3_cuenta_sin_movimientos dbSinMovimiento 4 none none true 10
    (armarReporte dbSinMovimiento 4 none none true 10)
    ⟨2, ['2', '1', '0', '0'], "Proveedores", "Pasivo"⟩
    (by decide) (by decide) (by decide) (by decide) (by decide) (by decide)

/-- Counterexample for C4: the only account of `dbCaja` has its single
posting dated 5, strictly outside the requested range [10, 20]; instead
of appearing with zero totals, the account vanishes and the report's
group list is empty. -/
theorem c4_contraejemplo :
    pasaFiltroFecha (some 10) (some 20) (some 5) = false ∧
    (∃ a ∈ dbCaja.asientos, a.id_cuenta = 1) ∧
    generarLibroMayorCompleto dbCaja 2 (some 10) (some 20) false 30 =
      .ok (armarReporte dbCaja 2 (some 10) (some 20) false 30) ∧
    (armarReporte dbCaja 2 (some 10) (some 20) false 30).mayores = [] := by
  refine ⟨by decide, by decide, by decide, by decide⟩

/-- Witness for C4 (amended) on `dbCaja` with range [10, 20]: no
surviving result row carries the out-of-range account's code. -/
theorem c4_cuenta_fuera_de_rango_witness :
    ((resultadosCuentas dbCaja (some 10) (some 20)).all
      (fun fila => fila.codigo_cuenta !=
        (⟨1, ['1', '1', '0', '0'], "Caja", "Activo"⟩ : CatalogoCuentas).codigo_cuenta)) =
      true := by
  rw [List.all_eq_true]
  intro fila hfila
  have h := c4_cuenta_fuera_de_rango dbCaja (some 10) (some 20)
    ⟨1, ['1', '1', '0', '0'], "Caja", "Activo"⟩ (by decide) (by decide) (by decide)
    (by
      intro a ha hid
      have ha2 : a = (⟨1, 1, 1, 150, 0⟩ : Asiento) := by
        simpa [dbCaja] using ha
      subst ha2
      exact ⟨⟨1, 5, "venta", "INGRESO"⟩, by decide, by decide⟩)
    fila hfila
  simpa using h

/-- Counterexample for C6: three groups of 0.10 each — the reported
summary debit total (float of 0.30) differs from the sum of the reported
group floats, and the reported `diferencia` differs from the exact
decimal |0.30 − 0|. -/
theorem c6_contraejemplo :
    (armarReporte dbTresDecimos 2 none none false 10).resumen.total_debe_general ≠
      ((armarReporte dbTresDecimos 2 none none false 10).mayores.map (·.total_debe)).sum ∧
    ((mayoresDict dbTresDecimos (2 : ℤ).toNat false
      (resultadosCuentas dbTresDecimos none none)).map (·.total_debe)).sum = 3 / 10 ∧
    (armarReporte dbTresDecimos 2 none none false 10).resumen.diferencia ≠
      |(3 : ℚ) / 10 - 0| := by
  refine ⟨by decide, by decide, by decide⟩

/-- Witness for C7 (amended): the bucket of `dbCaja` at width 2. -/
theorem c7_conservacion_witness :
    mayorCaja.saldo = mayorCaja.total_debe - mayorCaja.total_haber ∧
    mayorCaja.total_debe = (((resultadosCuentas dbCaja none none).filter
      (fun f => codigoMayor (2 : ℤ).toNat f.codigo_cuenta == mayorCaja.codigo_mayor)).map
        (·.total_debe)).sum ∧
    mayorCaja.total_haber = (((resultadosCuentas dbCaja none none).filter
      (fun f => codigoMayor (2 : ℤ).toNat f.codigo_cuenta == mayorCaja.codigo_mayor)).map
        (·.total_haber)).sum ∧
    mayorCaja.saldo = (((resultadosCuentas dbCaja none none).filter
      (fun f => codigoMayor (2 : ℤ).toNat f.codigo_cuenta == mayorCaja.codigo_mayor)).map
        (fun f => f.total_debe - f.total_haber)).sum ∧
    mayorCaja.subcuentas = ((resultadosCuentas dbCaja none none).filter
      (fun f => codigoMayor (2 : ℤ).toNat f.codigo_cuenta == mayorCaja.codigo_mayor)).map
        subcuentaDeFila ∧
    mayorAJson true mayorCaja ∈ (armarReporte dbCaja 2 none none true 10).mayores :=
  c7_conservacion dbCaja 2 none none 10 mayorCaja (by decide)

/-- Counterexample for C7: one group with three 0.10 subaccounts — the
reported group float differs from the sum of the reported subaccount
floats. -/
theorem c7_contraejemplo :
    (armarReporte dbGrupoDecimos 2 none none true 10).mayores.length = 1 ∧
    ((armarReporte dbGrupoDecimos 2 none none true 10).mayores.all
      (fun m => (m.subcuentas.map (·.total_debe)).sum == m.total_debe)) = false := by
  refine ⟨by decide, by decide⟩

/-- Witness for C8: in `dbNombres`, group `"11"` takes the exact-match
account name and group `"20"` gets the synthetic name. -/
theorem c8_nombre_de_mayor_witness :
    ((∃ c ∈ dbNombres.cuentas,
        c.codigo_cuenta = (⟨['1', '1'], "Bancos", 0, 0, 0, []⟩ : MayorJson).codigo_mayor ∧
        (⟨['1', '1'], "Bancos", 0, 0, 0, []⟩ : MayorJson).nombre_mayor = c.nombre_cuenta) ∨
      ((∀ c ∈ dbNombres.cuentas,
          c.codigo_cuenta ≠ (⟨['1', '1'], "Bancos", 0, 0, 0, []⟩ : MayorJson).codigo_mayor) ∧
        (⟨['1', '1'], "Bancos", 0, 0, 0, []⟩ : MayorJson).nombre_mayor =
          "Cuenta Mayor " ++ String.mk
            (⟨['1', '1'], "Bancos", 0, 0, 0, []⟩ : MayorJson).codigo_mayor)) ∧
    ((∃ c ∈ dbNombres.cuentas,
        c.codigo_cuenta =
          (⟨['2', '0'], "Cuenta Mayor 20", 0, 0, 0, []⟩ : MayorJson).codigo_mayor ∧
        (⟨['2', '0'], "Cuenta Mayor 20", 0, 0, 0, []⟩ : MayorJson).nombre_mayor =
          c.nombre_cuenta) ∨
      ((∀ c ∈ dbNombres.cuentas,
          c.codigo_cuenta ≠
            (⟨['2', '0'], "Cuenta Mayor 20", 0, 0, 0, []⟩ : MayorJson).codigo_mayor) ∧
        (⟨['2', '0'], "Cuenta Mayor 20", 0, 0, 0, []⟩ : MayorJson).nombre_mayor =
          "Cuenta Mayor " ++ String.mk
            (⟨['2', '0'], "Cuenta Mayor 20", 0, 0, 0, []⟩ : MayorJson).codigo_mayor)) :=
  ⟨c8_nombre_de_mayor dbNombres 2 none none false 10
      (armarReporte dbNombres 2 none none false 10) _ (by decide) (by decide),
    c8_nombre_de_mayor dbNombres 2 none none false 10
      (armarReporte dbNombres 2 none none false 10) _ (by decide) (by decide)⟩

/-- Witness for C9 on `dbCaja`: both rejection kinds and the untouched
store. -/
theorem c9_reglas_asiento_witness :
    createAsiento dbCaja ⟨99, 1, 150, 0⟩ =
      .error (.refNotFound "Transacción no encontrada") ∧
    createAsiento dbCaja ⟨1, 99, 150, 0⟩ =
      .error (.refNotFound "Cuenta no encontrada") ∧
    createAsiento dbCaja ⟨1, 1, 0, 0⟩ = .error .invalidEntry ∧
    createAsientoState dbCaja ⟨1, 1, 0, 0⟩ = dbCaja ∧
    updateAsiento dbCaja 1 ⟨none, none, some 0, some 0⟩ = .error .invalidEntry ∧
    updateAsientoState dbCaja 1 ⟨none, none, some 0, some 0⟩ = dbCaja := by
  refine ⟨?_, ?_, ?_, ?_, ?_, ?_⟩
  · exact (c9_reglas_asiento dbCaja ⟨99, 1, 150, 0⟩ 1 ⟨none, none, none, none⟩).1
      (by decide)
  · exact (c9_reglas_asiento dbCaja ⟨1, 99, 150, 0⟩ 1 ⟨none, none, none, none⟩).2.1
      (by decide) (by decide)
  · exact ((c9_reglas_asiento dbCaja ⟨1, 1, 0, 0⟩ 1 ⟨none, none, none, none⟩).2.2.1
      (by decide) (by decide)).mpr (Or.inr ⟨by decide, by decide⟩)
  · exact (c9_reglas_asiento dbCaja ⟨1, 1, 0, 0⟩ 1 ⟨none, none, none, none⟩).2.2.2.1
      .invalidEntry (by decide)
  · exact (((c9_reglas_asiento dbCaja ⟨1, 1, 0, 0⟩ 1
      ⟨none, none, some 0, some 0⟩).2.2.2.2.1 ⟨1, 1, 1, 150, 0⟩ (by decide)).2.2
      (by intro t ht; cases ht) (by intro cid hcid; cases hcid)).mpr
      (Or.inr ⟨by decide, by decide⟩)
  · exact (c9_reglas_asiento dbCaja ⟨1, 1, 0, 0⟩ 1
      ⟨none, none, some 0, some 0⟩).2.2.2.2.2 .invalidEntry (by decide)

end Concretos

end SistemaContable
